import Mathlib

/-!
# system-sentinel: sampling and detection pipeline

A shallow embedding of the Go packages `internal/config`, `internal/metrics`,
`internal/spikes`, `internal/alerts`, `internal/storage`, `internal/logging` and
`internal/scripts`, followed by theorems about them.

Modelling conventions.

* A `float64` value is a rational number (`Float64 := ℚ`); NaN is outside the model.  In the
  detectors every arithmetic step is the IEEE 754 binary64 operation of the Go code: the
  exact result rounded to the nearest binary64 value, ties to even (namespace `float64`).
  In the collector the derived percentages and rates are the exact quotients.  Every
  comparison and arithmetic step is kept in the order in which the code performs it.
* `uint64` values are natural numbers below `2 ^ 64`; additions, subtractions and
  multiplications are written with an explicit reduction modulo `2 ^ 64`.
* A `time.Time` is an `Int`, the nanoseconds since the zero `Time` (the one whose `IsZero`
  holds); a `time.Duration` is an `Int` count of nanoseconds, and `Time.Sub` saturates at
  the `int64` bounds.
* A Go method that mutates its receiver returns the new receiver next to its result.
-/

namespace Sentinel

/-- Go `float64`, modelled by exact rational arithmetic. -/
abbrev Float64 := ℚ

/-! ## `internal/config` -/

namespace config

structure CPUSpike where
  Enabled : Bool
  AbsoluteThreshold : Float64
  RelativeThreshold : Float64

structure MemorySpike where
  Enabled : Bool
  AbsoluteThreshold : Float64
  RelativeThreshold : Float64

structure NetworkSpike where
  Enabled : Bool
  RxMbpsThreshold : Float64
  TxMbpsThreshold : Float64
  RelativeThreshold : Float64

structure CPUAlert where
  Enabled : Bool
  AbsoluteThreshold : Float64
  RelativeThreshold : Float64

structure MemoryAlert where
  Enabled : Bool
  AbsoluteThreshold : Float64

structure NetworkAlert where
  Enabled : Bool
  RxMbpsThreshold : Float64
  TxMbpsThreshold : Float64

structure Spikes where
  CPU : CPUSpike
  Memory : MemorySpike
  Network : NetworkSpike

structure Alerts where
  CPU : CPUAlert
  Memory : MemoryAlert
  Network : NetworkAlert

structure Scripts where
  Dir : String
  EnvFile : String
  DebounceSec : Int
  TimeoutSec : Int
  Enabled : Bool

structure Config where
  SampleIntervalSec : Int
  CollectionIntervalSec : Int
  LogDir : String
  RetentionDays : Int
  Interface : String
  Spikes : Spikes
  Alerts : Alerts
  Scripts : Scripts
  Env : List (String × String)

end config

/-! ## `internal/metrics`: the snapshot -/

namespace metrics

structure MetricsSnapshot where
  Timestamp : Int
  CPUUsagePercent : Float64
  MemUsedPercent : Float64
  MemUsedBytes : Nat
  MemTotalBytes : Nat
  NetInterface : String
  NetRxBytesPS : Float64
  NetTxBytesPS : Float64
  NetRxMbps : Float64
  NetTxMbps : Float64

end metrics

/-! ## Go `float64` arithmetic

The Go language specification makes `float64` the IEEE 754 binary64 format: each of `-`,
`/` and `*` returns the exact result rounded to the nearest representable value, ties to the
value with an even significand.  The functions below compute that rounding on rationals. -/

namespace float64

/-- Worker of `log2`: halve until the number is below 2. -/
def log2Aux : Nat → Nat → Nat
  | 0, _ => 0
  | fuel + 1, n => if 2 ≤ n then log2Aux fuel (n / 2) + 1 else 0

/-- The integer part of the binary logarithm of a positive natural number. -/
def log2 (n : Nat) : Nat := log2Aux n n

/-- The exponent `e` with `2 ^ e ≤ n / d < 2 ^ (e + 1)`, for positive `n` and `d`. -/
def floorLog2 (n d : Nat) : Int :=
  let c : Int := (log2 n : Int) - (log2 d : Int)
  if 0 ≤ c then (if d * 2 ^ c.toNat ≤ n then c else c - 1)
  else (if d ≤ n * 2 ^ (-c).toNat then c else c - 1)

/-- The natural number nearest to `n / d`, a tie going to the even one. -/
def roundHalfEven (n d : Nat) : Nat :=
  let q := n / d
  let r := n % d
  if 2 * r < d then q
  else if d < 2 * r then q + 1
  else if q % 2 = 0 then q else q + 1

/-- The number `2 ^ 1024`, the least magnitude that binary64 rounds to an infinity. -/
def twoPow1024 : Nat :=
  179769313486231590772930519078902473361797697894230657273430081157732675805500963132708477322407536021120113879871393357658789768814416622492847430639474124377767893424865485276302219601246094119453082952085005768838150682342462881473913110540827237163350510684586298239947245938479716304835356329624224137216

/-- The stand-in for `+Inf` (`negative = false`) and `-Inf` (`negative = true`): `2 ^ 1024`
with the sign.  It compares with every finite binary64 value as the infinity does. -/
def inf (negative : Bool) : Float64 :=
  if negative then -(twoPow1024 : Float64) else (twoPow1024 : Float64)

/-- Whether a value is one of the two stand-ins for an infinity (or beyond). -/
def isInf (x : Float64) : Bool :=
  decide (x ≠ 0) && decide (1024 ≤ floorLog2 x.num.natAbs x.den)

/-- The binary64 value nearest to `x`, ties to even: 53 significant bits for a normal
result, a multiple of `2 ^ (-1074)` for a subnormal one, and the stand-in for an infinity
when the rounded magnitude reaches `2 ^ 1024`. -/
def round64 (x : Float64) : Float64 :=
  if x = 0 then 0
  else
    let n := x.num.natAbs
    let d := x.den
    let e := floorLog2 n d
    if 1024 ≤ e then inf (decide (x < 0))
    else
      let k : Int := max e (-1022) - 52
      let a : Float64 :=
        if 0 ≤ k then ((roundHalfEven n (d * 2 ^ k.toNat) * 2 ^ k.toNat : Nat) : Float64)
        else ((roundHalfEven (n * 2 ^ (-k).toNat) d : Nat) : Float64) /
          ((2 ^ (-k).toNat : Nat) : Float64)
      if x < 0 then -a else a

/-- Go `a - b` on finite `float64` operands. -/
def sub (a b : Float64) : Float64 := round64 (a - b)

/-- Go `a / b` on `float64`, for a finite non-zero divisor `b`; an infinite `a` stays
infinite. -/
def div (a b : Float64) : Float64 :=
  if isInf a then inf (decide (a < 0) != decide (b < 0)) else round64 (a / b)

/-- Go `a * b` on `float64`, for a finite non-zero factor `b`; an infinite `a` stays
infinite. -/
def mul (a b : Float64) : Float64 :=
  if isInf a then inf (decide (a < 0) != decide (b < 0)) else round64 (a * b)

end float64

open config metrics

/-! ## `internal/spikes` -/

namespace spikes

def detectCPUSpike (d : Config) (current previous : MetricsSnapshot) : Bool :=
  let cfg := d.Spikes.CPU
  if current.CPUUsagePercent ≥ cfg.AbsoluteThreshold then true
  else if previous.CPUUsagePercent > 0 ∧ cfg.RelativeThreshold > 0 then
    let relativeChange :=
      float64.mul (float64.div (float64.sub current.CPUUsagePercent previous.CPUUsagePercent)
        previous.CPUUsagePercent) 100
    if relativeChange ≥ cfg.RelativeThreshold then true else false
  else false

def detectMemorySpike (d : Config) (current previous : MetricsSnapshot) : Bool :=
  let cfg := d.Spikes.Memory
  if current.MemUsedPercent ≥ cfg.AbsoluteThreshold then true
  else if previous.MemUsedPercent > 0 ∧ cfg.RelativeThreshold > 0 then
    let relativeChange :=
      float64.mul (float64.div (float64.sub current.MemUsedPercent previous.MemUsedPercent)
        previous.MemUsedPercent) 100
    if relativeChange ≥ cfg.RelativeThreshold then true else false
  else false

def detectNetworkSpike (d : Config) (current previous : MetricsSnapshot) : Bool :=
  let cfg := d.Spikes.Network
  if current.NetRxMbps ≥ cfg.RxMbpsThreshold then true
  else if current.NetTxMbps ≥ cfg.TxMbpsThreshold then true
  else
    let rxFired : Bool :=
      if previous.NetRxMbps > 0 ∧ cfg.RelativeThreshold > 0 then
        let rxChange :=
          float64.mul
            (float64.div (float64.sub current.NetRxMbps previous.NetRxMbps) previous.NetRxMbps)
            100
        decide (rxChange ≥ cfg.RelativeThreshold)
      else false
    if rxFired then true
    else
      let txFired : Bool :=
        if previous.NetTxMbps > 0 ∧ cfg.RelativeThreshold > 0 then
          let txChange :=
            float64.mul
              (float64.div (float64.sub current.NetTxMbps previous.NetTxMbps) previous.NetTxMbps)
              100
          decide (txChange ≥ cfg.RelativeThreshold)
        else false
      if txFired then true else false

def Detect (d : Config) (current previous : MetricsSnapshot) : List String :=
  let spikes : List String := []
  let spikes :=
    if d.Spikes.CPU.Enabled then
      if detectCPUSpike d current previous then spikes ++ ["cpu"] else spikes
    else spikes
  let spikes :=
    if d.Spikes.Memory.Enabled then
      if detectMemorySpike d current previous then spikes ++ ["memory"] else spikes
    else spikes
  let spikes :=
    if d.Spikes.Network.Enabled then
      if detectNetworkSpike d current previous then spikes ++ ["network"] else spikes
    else spikes
  spikes

end spikes

/-! ## `internal/alerts`: the alert rules -/

namespace alerts

def detectCPUAlert (e : Config) (current previous : MetricsSnapshot) : Bool :=
  let cfg := e.Alerts.CPU
  if current.CPUUsagePercent ≥ cfg.AbsoluteThreshold then true
  else if previous.CPUUsagePercent > 0 ∧ cfg.RelativeThreshold > 0 then
    let relativeChange :=
      float64.mul (float64.div (float64.sub current.CPUUsagePercent previous.CPUUsagePercent)
        previous.CPUUsagePercent) 100
    if relativeChange ≥ cfg.RelativeThreshold then true else false
  else false

def detectMemoryAlert (e : Config) (current : MetricsSnapshot) : Bool :=
  let cfg := e.Alerts.Memory
  decide (current.MemUsedPercent ≥ cfg.AbsoluteThreshold)

def detectNetworkAlert (e : Config) (current : MetricsSnapshot) : Bool :=
  let cfg := e.Alerts.Network
  decide (current.NetRxMbps ≥ cfg.RxMbpsThreshold) || decide (current.NetTxMbps ≥ cfg.TxMbpsThreshold)

def Detect (e : Config) (current previous : MetricsSnapshot) : List String :=
  let alerts : List String := []
  let alerts :=
    if e.Alerts.CPU.Enabled then
      if detectCPUAlert e current previous then alerts ++ ["cpu"] else alerts
    else alerts
  let alerts :=
    if e.Alerts.Memory.Enabled then
      if detectMemoryAlert e current then alerts ++ ["memory"] else alerts
    else alerts
  let alerts :=
    if e.Alerts.Network.Enabled then
      if detectNetworkAlert e current then alerts ++ ["network"] else alerts
    else alerts
  alerts

/-! ### The debouncer -/

/-- Smallest value of a Go `time.Duration`. -/
def minDuration : Int := -(2 ^ 63)

/-- Largest value of a Go `time.Duration`. -/
def maxDuration : Int := 2 ^ 63 - 1

/-- Go `Time.Sub`: the difference `t - u`, saturated at the `Duration` bounds. -/
def timeSub (t u : Int) : Int :=
  if t - u > maxDuration then maxDuration
  else if t - u < minDuration then minDuration
  else t - u

/-- Two's complement reduction of an integer to `int64`. -/
def wrapInt64 (x : Int) : Int := (x + 2 ^ 63) % 2 ^ 64 - 2 ^ 63

/-- The value of `time.Duration(e.cfg.Scripts.DebounceSec) * time.Second`. -/
def debounceDur (cfg : Config) : Int :=
  wrapInt64 (cfg.Scripts.DebounceSec * 1000000000)

structure Engine where
  cfg : Config
  lastFired : String → Option Int

def NewEngine (cfg : Config) : Engine :=
  { cfg := cfg, lastFired := fun _ => none }

/-- Go map assignment `m[key] = value`. -/
def setLastFired (m : String → Option Int) (key : String) (value : Int) :
    String → Option Int :=
  fun k => if k = key then some value else m k

/-- The `for _, alertType := range alertTypes` loop of `ShouldExecuteScripts`, threading the
map and the `shouldExecute` flag. -/
def shouldExecuteLoop (now : Int) (debounceDur : Int) :
    List String → (String → Option Int) → Bool → (String → Option Int) × Bool
  | [], lastFired, shouldExecute => (lastFired, shouldExecute)
  | alertType :: rest, lastFired, shouldExecute =>
    match lastFired alertType with
    | none =>
      shouldExecuteLoop now debounceDur rest (setLastFired lastFired alertType now) true
    | some lastTime =>
      if timeSub now lastTime ≥ debounceDur then
        shouldExecuteLoop now debounceDur rest (setLastFired lastFired alertType now) true
      else
        shouldExecuteLoop now debounceDur rest lastFired shouldExecute

/-- `Engine.ShouldExecuteScripts`; `now` is the value read from `time.Now()`. -/
def ShouldExecuteScripts (e : Engine) (now : Int) (alertTypes : List String) :
    Engine × Bool :=
  if alertTypes.length = 0 then (e, false)
  else
    let debounceDur := debounceDur e.cfg
    let r := shouldExecuteLoop now debounceDur alertTypes e.lastFired false
    ({ e with lastFired := r.1 }, r.2)

end alerts

/-! ## Go standard library helpers used by the collector -/

namespace gostd

/-- Go `unicode.IsSpace`. -/
def isSpace (c : Char) : Bool :=
  let n := c.toNat
  (9 ≤ n && n ≤ 13) || n = 32 || n = 133 || n = 160 || n = 5760 ||
    (8192 ≤ n && n ≤ 8202) || n = 8232 || n = 8233 || n = 8239 || n = 8287 || n = 12288

/-- Worker of `Fields`: `cur` holds the characters of the field being read, reversed. -/
def fieldsAux (cur : List Char) : List Char → List (List Char)
  | [] => if cur.isEmpty then [] else [cur.reverse]
  | c :: cs =>
    if isSpace c then
      if cur.isEmpty then fieldsAux [] cs else cur.reverse :: fieldsAux [] cs
    else fieldsAux (c :: cur) cs

/-- Go `strings.Fields`: the maximal runs of non-space characters. -/
def Fields (s : String) : List String :=
  (fieldsAux [] s.toList).map String.mk

/-- Go `strings.HasPrefix`. -/
def HasPrefix (s pre : String) : Bool :=
  pre.toList.isPrefixOf s.toList

/-- Worker of `Contains`. -/
def containsChars (sub : List Char) : List Char → Bool
  | [] => sub.isEmpty
  | c :: cs => sub.isPrefixOf (c :: cs) || containsChars sub cs

/-- Go `strings.Contains`. -/
def Contains (s substr : String) : Bool :=
  containsChars substr.toList s.toList

/-- Largest `uint64`. -/
def maxUint64 : Nat := 2 ^ 64 - 1

/-- Digit loop of `strconv.ParseUint(s, 10, 64)`: a character that is no decimal digit
gives 0 (syntax error), an overflow gives `maxUint64` (range error). -/
def parseUintAux (n : Nat) : List Char → Nat
  | [] => n
  | c :: cs =>
    if 48 ≤ c.toNat ∧ c.toNat ≤ 57 then
      if n ≥ maxUint64 / 10 + 1 then maxUint64
      else if n * 10 + (c.toNat - 48) > maxUint64 then maxUint64
      else parseUintAux (n * 10 + (c.toNat - 48)) cs
    else 0

/-- The value returned by Go `strconv.ParseUint(s, 10, 64)`, the error being dropped as the
callers do (`v, _ := strconv.ParseUint(...)`). -/
def ParseUint (s : String) : Nat :=
  if s.toList.isEmpty then 0 else parseUintAux 0 s.toList

end gostd

/-! ## `internal/metrics`: the collector -/

namespace metrics

open gostd

/-- Modulus of `uint64` arithmetic. -/
def u64 : Nat := 2 ^ 64

/-- Go `a - b` on `uint64`. -/
def subU64 (a b : Nat) : Nat := (a + u64 - b % u64) % u64

structure cpuStats where
  user : Nat
  nice : Nat
  system : Nat
  idle : Nat
  iowait : Nat
  irq : Nat
  softirq : Nat
  steal : Nat
deriving DecidableEq

structure netStats where
  rxBytes : Nat
  txBytes : Nat
deriving DecidableEq

structure Collector where
  interfaceName : String
  prevCPUStats : cpuStats
  prevNetStats : netStats
  prevSampleTime : Int
  initialized : Bool
deriving DecidableEq

def NewCollector (interfaceName : String) : Collector :=
  { interfaceName := interfaceName
    prevCPUStats := ⟨0, 0, 0, 0, 0, 0, 0, 0⟩
    prevNetStats := ⟨0, 0⟩
    prevSampleTime := 0
    initialized := false }

/-- The three kernel sources read by one `Collect` call.  `none` stands for a failing
`os.Open`; `some lines` holds the lines that `bufio.Scanner` delivers. -/
structure Procfs where
  stat : Option (List String)
  meminfo : Option (List String)
  netdev : Option (List String)

/-- The stage at which `Collect` failed, with the wrapped cause. -/
inductive CollectError where
  | cpu (cause : String)
  | memory (cause : String)
  | network (cause : String)
deriving DecidableEq

/-- The counters `collectCPU` reads off the fields of the first line of `/proc/stat`. -/
def parseCPUStats (fields : List String) : cpuStats :=
  { user := ParseUint (fields.getD 1 "")
    nice := ParseUint (fields.getD 2 "")
    system := ParseUint (fields.getD 3 "")
    idle := ParseUint (fields.getD 4 "")
    iowait := ParseUint (fields.getD 5 "")
    irq := ParseUint (fields.getD 6 "")
    softirq := ParseUint (fields.getD 7 "")
    steal := if fields.length > 8 then ParseUint (fields.getD 8 "") else 0 }

/-- The sum `user + nice + system + idle + iowait + irq + softirq + steal` in `uint64`. -/
def cpuTotal (s : cpuStats) : Nat :=
  (s.user + s.nice + s.system + s.idle + s.iowait + s.irq + s.softirq + s.steal) % u64

/-- The sum `idle + iowait` in `uint64`. -/
def cpuIdle (s : cpuStats) : Nat := (s.idle + s.iowait) % u64

/-- The part of `collectCPU` up to the filling of `stats`: open, first line, field check. -/
def readCPUStats (stat : Option (List String)) : Except String cpuStats :=
  match stat with
  | none => .error "open /proc/stat"
  | some [] => .error "empty /proc/stat"
  | some (line :: _) =>
    let fields := Fields line
    if fields.length < 8 ∨ fields.getD 0 "" ≠ "cpu" then .error "invalid cpu line"
    else .ok (parseCPUStats fields)

def collectCPU (c : Collector) (stat : Option (List String)) :
    Collector × Except String Float64 :=
  match readCPUStats stat with
  | .error err => (c, .error err)
  | .ok stats =>
    if !c.initialized then
      ({ c with prevCPUStats := stats, initialized := true }, .ok 0)
    else
      let totalPrev := cpuTotal c.prevCPUStats
      let totalCurr := cpuTotal stats
      let idlePrev := cpuIdle c.prevCPUStats
      let idleCurr := cpuIdle stats
      let totalDelta := subU64 totalCurr totalPrev
      let idleDelta := subU64 idleCurr idlePrev
      if totalDelta = 0 then
        ({ c with prevCPUStats := stats }, .ok 0)
      else
        let usage : Float64 := (1 - (idleDelta : Float64) / (totalDelta : Float64)) * 100
        ({ c with prevCPUStats := stats }, .ok usage)

structure memoryInfo where
  total : Nat
  available : Nat
deriving DecidableEq

/-- The body of the `for scanner.Scan()` loop of `collectMemory` before the `break` test. -/
def memoryLine (info : memoryInfo) (line : String) : memoryInfo :=
  if HasPrefix line "MemTotal:" then
    let fields := Fields line
    if fields.length ≥ 2 then
      let val := ParseUint (fields.getD 1 "")
      { info with total := (val * 1024) % u64 }
    else info
  else if HasPrefix line "MemAvailable:" then
    let fields := Fields line
    if fields.length ≥ 2 then
      let val := ParseUint (fields.getD 1 "")
      { info with available := (val * 1024) % u64 }
    else info
  else info

/-- The `for scanner.Scan()` loop of `collectMemory`, leaving at the `break`. -/
def scanMeminfo (info : memoryInfo) : List String → memoryInfo
  | [] => info
  | line :: rest =>
    let info := memoryLine info line
    if info.total > 0 ∧ info.available > 0 then info else scanMeminfo info rest

def collectMemory (meminfo : Option (List String)) : Except String memoryInfo :=
  match meminfo with
  | none => .error "open /proc/meminfo"
  | some lines =>
    let info := scanMeminfo ⟨0, 0⟩ lines
    if info.total = 0 then .error "could not read MemTotal"
    else if info.available = 0 then .ok { info with available := info.total }
    else .ok info

structure networkInfo where
  rxBytesPS : Float64
  txBytesPS : Float64
deriving DecidableEq

/-- The `for scanner.Scan()` loop of `collectNetwork`: the counters of the first line that
passes the three tests, `none` when `found` stays false. -/
def findInterface (interfaceName : String) : List String → Option (Nat × Nat)
  | [] => none
  | line :: rest =>
    if !Contains line interfaceName then findInterface interfaceName rest
    else
      let fields := Fields line
      if fields.length < 10 then findInterface interfaceName rest
      else
        let interfacePart := fields.getD 0 ""
        if !HasPrefix interfacePart (interfaceName ++ ":") then
          findInterface interfaceName rest
        else
          some (ParseUint (fields.getD 1 ""), ParseUint (fields.getD 9 ""))

/-- Go `Duration.Seconds`. -/
def durationSeconds (d : Int) : Float64 := (d : Float64) / 1000000000

def collectNetwork (c : Collector) (now : Int) (netdev : Option (List String)) :
    Collector × Except String networkInfo :=
  match netdev with
  | none => (c, .error "open /proc/net/dev")
  | some lines =>
    match findInterface c.interfaceName lines with
    | none => (c, .error ("interface " ++ c.interfaceName ++ " not found"))
    | some (rxBytes, txBytes) =>
      if !c.initialized || decide (c.prevSampleTime = 0) then
        ({ c with prevNetStats := ⟨rxBytes, txBytes⟩, prevSampleTime := now },
          .ok ⟨0, 0⟩)
      else
        let deltaTime := durationSeconds (alerts.timeSub now c.prevSampleTime)
        let deltaTime := if deltaTime ≤ 0 then 1 else deltaTime
        let rxDelta := subU64 rxBytes c.prevNetStats.rxBytes
        let txDelta := subU64 txBytes c.prevNetStats.txBytes
        let rxBytesPS : Float64 := (rxDelta : Float64) / deltaTime
        let txBytesPS : Float64 := (txDelta : Float64) / deltaTime
        ({ c with prevNetStats := ⟨rxBytes, txBytes⟩, prevSampleTime := now },
          .ok ⟨rxBytesPS, txBytesPS⟩)

/-- `Collector.Collect`; `now` is the value read from `time.Now()`.  On an error the Go code
returns the partly filled snapshot next to the error and its caller drops it. -/
def Collect (c : Collector) (now : Int) (fs : Procfs) :
    Collector × Except CollectError MetricsSnapshot :=
  let snap : MetricsSnapshot :=
    { Timestamp := now, CPUUsagePercent := 0, MemUsedPercent := 0, MemUsedBytes := 0,
      MemTotalBytes := 0, NetInterface := c.interfaceName, NetRxBytesPS := 0,
      NetTxBytesPS := 0, NetRxMbps := 0, NetTxMbps := 0 }
  match collectCPU c fs.stat with
  | (c, .error err) => (c, .error (.cpu err))
  | (c, .ok cpuUsage) =>
    let snap := { snap with CPUUsagePercent := cpuUsage }
    match collectMemory fs.meminfo with
    | .error err => (c, .error (.memory err))
    | .ok memInfo =>
      let snap := { snap with MemTotalBytes := memInfo.total }
      let snap := { snap with MemUsedBytes := subU64 memInfo.total memInfo.available }
      let snap := { snap with
        MemUsedPercent := (snap.MemUsedBytes : Float64) / (memInfo.total : Float64) * 100 }
      match collectNetwork c now fs.netdev with
      | (c, .error err) => (c, .error (.network err))
      | (c, .ok netInfo) =>
        let snap := { snap with NetRxBytesPS := netInfo.rxBytesPS }
        let snap := { snap with NetTxBytesPS := netInfo.txBytesPS }
        let snap := { snap with NetRxMbps := netInfo.rxBytesPS * 8 / 1000000 }
        let snap := { snap with NetTxMbps := netInfo.txBytesPS * 8 / 1000000 }
        (c, .ok snap)

end metrics

/-! ## `internal/config`: defaults and validation -/

namespace config

def applyDefaults (c : Config) : Config :=
  let c := if c.SampleIntervalSec ≤ 0 then { c with SampleIntervalSec := 1 } else c
  let c := if c.CollectionIntervalSec ≤ 0 then { c with CollectionIntervalSec := 60 } else c
  let c := if c.LogDir = "" then { c with LogDir := "/var/log/system-sentinel" } else c
  let c := if c.RetentionDays ≤ 0 then { c with RetentionDays := 30 } else c
  let c := if c.Interface = "" then { c with Interface := "eth0" } else c
  let c :=
    if c.Scripts.Dir = "" then { c with Scripts := { c.Scripts with Dir := "/etc/system-sentinel/sh" } }
    else c
  let c :=
    if c.Scripts.EnvFile = "" then
      { c with Scripts := { c.Scripts with EnvFile := "/etc/system-sentinel/.env" } }
    else c
  let c :=
    if c.Scripts.DebounceSec ≤ 0 then { c with Scripts := { c.Scripts with DebounceSec := 60 } }
    else c
  let c :=
    if c.Scripts.TimeoutSec ≤ 0 then { c with Scripts := { c.Scripts with TimeoutSec := 30 } }
    else c
  c

/-- `Config.validate`: `none` is the `nil` error. -/
def validate (c : Config) : Option String :=
  if c.SampleIntervalSec ≤ 0 then some "sample_interval_sec must be positive"
  else if c.CollectionIntervalSec ≤ 0 then some "collection_interval_sec must be positive"
  else if c.RetentionDays ≤ 0 then some "retention_days must be positive"
  else if c.Interface = "" then some "interface cannot be empty"
  else if c.Scripts.DebounceSec ≤ 0 then some "scripts.debounce_sec must be positive"
  else if c.Scripts.TimeoutSec ≤ 0 then some "scripts.timeout_sec must be positive"
  else none

/-- `LoadConfig`.  The two library calls are parameters: `readFile` stands for `os.ReadFile`
and `unmarshal` for `yaml.Unmarshal` into a zero `Config`. -/
def LoadConfig (readFile : String → Except String String)
    (unmarshal : String → Except String Config) (path : String) : Except String Config :=
  if path = "" then .error "config path is required"
  else
    match readFile path with
    | .error err => .error ("failed to read config: " ++ err)
    | .ok data =>
      match unmarshal data with
      | .error err => .error ("failed to parse config: " ++ err)
      | .ok cfg =>
        let cfg := applyDefaults cfg
        match validate cfg with
        | some err => .error ("invalid config: " ++ err)
        | none => .ok cfg

end config

/-! ## `internal/storage`: the retention rotator -/

namespace storage

structure Rotator where
  logDir : String
  retentionDays : Int

def NewRotator (logDir : String) (retentionDays : Int) : Rotator :=
  { logDir := logDir, retentionDays := retentionDays }

/-- A directory entry as `os.ReadDir` returns it. -/
structure DirEntry where
  Name : String
  IsDir : Bool
deriving DecidableEq

/-- The class `\d` of Go `regexp`: an ASCII decimal digit. -/
def isDigit (c : Char) : Bool := 48 ≤ c.toNat && c.toNat ≤ 57

/-- The value of a decimal digit. -/
def digitVal (c : Char) : Nat := c.toNat - 48

/-- The group `\d{4}-\d{2}-\d{2}` of `filenamePattern`. -/
def datePattern : List Char → Bool
  | [y1, y2, y3, y4, a, m1, m2, b, d1, d2] =>
    isDigit y1 && isDigit y2 && isDigit y3 && isDigit y4 && a.toNat = 45 &&
      isDigit m1 && isDigit m2 && b.toNat = 45 && isDigit d1 && isDigit d2
  | _ => false

/-- The result of `filenamePattern.FindStringSubmatch(name)` for the pattern
`^metrics-(\d{4}-\d{2}-\d{2})\.ndjson$`: `some` of the captured group when the whole name
matches (`len(matches) == 2`), `none` otherwise. -/
def matchFilename (name : String) : Option String :=
  let cs := name.toList
  if cs.length = 25 ∧ "metrics-".toList.isPrefixOf cs ∧ ".ndjson".toList.isSuffixOf cs ∧
      datePattern ((cs.drop 8).take 10) then
    some (String.mk ((cs.drop 8).take 10))
  else none

/-- Nanoseconds in a day. -/
def nsPerDay : Int := 86400 * 1000000000

/-- Go `isLeap`. -/
def isLeap (year : Nat) : Bool :=
  year % 4 = 0 && (year % 100 ≠ 0 || year % 400 = 0)

/-- Go `daysIn`: the number of days of a month of a year. -/
def daysIn (month year : Nat) : Nat :=
  if month = 2 then (if isLeap year then 29 else 28)
  else if month = 4 ∨ month = 6 ∨ month = 9 ∨ month = 11 then 30
  else 31

/-- Days of a common year before the first day of the month. -/
def daysBefore (month : Nat) : Nat :=
  [0, 31, 59, 90, 120, 151, 181, 212, 243, 273, 304, 334].getD (month - 1) 0

/-- Days from the first of January of year 1 to the given date of the proleptic Gregorian
calendar: the day count behind `time.Date(year, month, day, 0, 0, 0, 0, time.UTC)`. -/
def dayNumber (year month day : Nat) : Int :=
  let n : Int := (year : Int) - 1
  365 * n + n / 4 - n / 100 + n / 400 + (daysBefore month : Int) +
    (if isLeap year ∧ 2 < month then 1 else 0) + ((day : Int) - 1)

/-- The value `time.Parse("2006-01-02", value)` returns, as an instant: the midnight UTC of
the date, or `none` for an error (wrong shape, month or day out of range). -/
def parseDate (value : String) : Option Int :=
  match value.toList with
  | [y1, y2, y3, y4, a, m1, m2, b, d1, d2] =>
    if isDigit y1 && isDigit y2 && isDigit y3 && isDigit y4 && a.toNat = 45 &&
        isDigit m1 && isDigit m2 && b.toNat = 45 && isDigit d1 && isDigit d2 then
      let year := digitVal y1 * 1000 + digitVal y2 * 100 + digitVal y3 * 10 + digitVal y4
      let month := digitVal m1 * 10 + digitVal m2
      let day := digitVal d1 * 10 + digitVal d2
      if month ≤ 0 ∨ 12 < month then none
      else if day < 1 ∨ day > daysIn month year then none
      else some (dayNumber year month day * nsPerDay)
    else none
  | _ => none

/-- The value of `time.Now().UTC().AddDate(0, 0, -retentionDays)`: on a UTC time `AddDate`
moves the date by whole days and keeps the clock reading. -/
def cutoffOf (now : Int) (retentionDays : Int) : Int :=
  now + (-retentionDays) * nsPerDay

/-- The `for _, entry := range entries` loop of `rotate`: the names handed to `os.Remove`
(joined to the log directory there), in the order of the calls. -/
def rotateLoop (cutoff : Int) : List DirEntry → List String
  | [] => []
  | entry :: rest =>
    if entry.IsDir then rotateLoop cutoff rest
    else
      match matchFilename entry.Name with
      | none => rotateLoop cutoff rest
      | some date =>
        match parseDate date with
        | none => rotateLoop cutoff rest
        | some fileDate =>
          if fileDate < cutoff then entry.Name :: rotateLoop cutoff rest
          else rotateLoop cutoff rest

/-- `Rotator.rotate`; `now` is the value read from `time.Now()` and `readDir` the result of
`os.ReadDir(r.logDir)`.  The result lists the entries for which `os.Remove` is called. -/
def rotate (r : Rotator) (now : Int) (readDir : Except String (List DirEntry)) :
    List String :=
  match readDir with
  | .error _ => []
  | .ok entries => rotateLoop (cutoffOf now r.retentionDays) entries

end storage

/-! ## `internal/logging` and `internal/scripts`: the event metric -/

namespace logging

/-- The logger; `file` holds the name, inside `logDir`, of the file the handle was opened
on, `none` for a nil handle. -/
structure Logger where
  logDir : String
  file : Option String
  date : String

/-- The struct `LogEntry`; the field `Type` is named `EventType` here. -/
structure LogEntry where
  Timestamp : String
  EventType : String
  Metric : String
  Reasons : List String
  Metrics : MetricsSnapshot

/-- The members of the JSON object that `json.Marshal` writes for a `LogEntry`: the tag
`omitempty` leaves `reasons` out when the list is empty. -/
structure Event where
  timestamp : String
  type : String
  metric : String
  reasons : Option (List String)
  metrics : MetricsSnapshot

def marshal (entry : LogEntry) : Event :=
  { timestamp := entry.Timestamp, type := entry.EventType, metric := entry.Metric,
    reasons := if entry.Reasons.length = 0 then none else some entry.Reasons,
    metrics := entry.Metrics }

/-- What the outside world answers during one `log` call: the current UTC date as
`time.Now().UTC().Format("2006-01-02")` gives it, and the errors, if any, of `os.OpenFile`
and of `File.Write`. -/
structure LogEnv where
  currentDate : String
  openError : Option String
  writeError : Option String

def rotateIfNeeded (l : Logger) (env : LogEnv) : Logger × Option String :=
  if l.file.isSome ∧ l.date = env.currentDate then (l, none)
  else
    match env.openError with
    | some err => (l, some ("failed to open log file: " ++ err))
    | none =>
      ({ l with file := some ("metrics-" ++ env.currentDate ++ ".ndjson"),
                date := env.currentDate }, none)

/-- `Logger.log`; `formatTime` stands for `Time.Format(time.RFC3339)`.  The result is the
event appended to the file, or the error. -/
def log (l : Logger) (env : LogEnv) (formatTime : Int → String) (eventType metric : String)
    (reasons : List String) (snap : MetricsSnapshot) : Logger × Except String Event :=
  match rotateIfNeeded l env with
  | (l, some err) => (l, .error err)
  | (l, none) =>
    let entry : LogEntry :=
      { Timestamp := formatTime snap.Timestamp, EventType := eventType, Metric := metric,
        Reasons := reasons, Metrics := snap }
    match env.writeError with
    | some err => (l, .error ("failed to write log: " ++ err))
    | none => (l, .ok (marshal entry))

def LogSample (l : Logger) (env : LogEnv) (formatTime : Int → String)
    (snap : MetricsSnapshot) : Logger × Except String Event :=
  log l env formatTime "sample" "sample" [] snap

def LogSpike (l : Logger) (env : LogEnv) (formatTime : Int → String)
    (snap : MetricsSnapshot) (spikeTypes : List String) : Logger × Except String Event :=
  let metric := if spikeTypes.length = 1 then spikeTypes.getD 0 "" else "multi"
  log l env formatTime "spike" metric spikeTypes snap

def LogAlert (l : Logger) (env : LogEnv) (formatTime : Int → String)
    (snap : MetricsSnapshot) (alertTypes : List String) : Logger × Except String Event :=
  let metric := if alertTypes.length = 1 then alertTypes.getD 0 "" else "multi"
  log l env formatTime "alert" metric alertTypes snap

end logging

namespace scripts

/-- `Runner.buildEnv`, the map as a list of bindings with distinct keys.  `formatTime`
stands for `Time.Format(time.RFC3339)` and `formatFloat` for
`strconv.FormatFloat(x, 'f', 2, 64)`. -/
def buildEnv (formatTime : Int → String) (formatFloat : Float64 → String)
    (alertTypes : List String) (snap : MetricsSnapshot) : List (String × String) :=
  let metric := if alertTypes.length = 1 then alertTypes.getD 0 "" else "multi"
  [ ("SYS_TIMESTAMP", formatTime snap.Timestamp),
    ("SYS_EVENT_TYPE", "alert"),
    ("SYS_EVENT_METRIC", metric),
    ("SYS_CPU_USAGE", formatFloat snap.CPUUsagePercent),
    ("SYS_MEM_USED_PERCENT", formatFloat snap.MemUsedPercent),
    ("SYS_MEM_USED_BYTES", toString snap.MemUsedBytes),
    ("SYS_MEM_TOTAL_BYTES", toString snap.MemTotalBytes),
    ("SYS_NET_INTERFACE", snap.NetInterface),
    ("SYS_NET_RX_BPS", formatFloat snap.NetRxBytesPS),
    ("SYS_NET_TX_BPS", formatFloat snap.NetTxBytesPS),
    ("SYS_NET_RX_MBPS", formatFloat snap.NetRxMbps),
    ("SYS_NET_TX_MBPS", formatFloat snap.NetTxMbps) ]

end scripts

/-! ## Specification-level definitions

The rules below are written from the wording of the specification; the theorems compare
them with the functions embedded from the source. -/

namespace spec

/-- The relative change `(current - previous) / previous * 100` in `float64` arithmetic. -/
def relativeChange (current previous : Float64) : Float64 :=
  float64.mul (float64.div (float64.sub current previous) previous) 100

/-- The per-category rule of the specification: the absolute test, or the relative test,
which is evaluated only for a positive previous value and a positive relative threshold. -/
def categoryRule (absolute relative current previous : Float64) : Prop :=
  current ≥ absolute ∨
    (previous > 0 ∧ relative > 0 ∧ relativeChange current previous ≥ relative)

instance (a r c p : Float64) : Decidable (categoryRule a r c p) := by
  unfold categoryRule; infer_instance

/-- A snapshot in which only the four detector inputs are set. -/
def snapshotOf (cpu mem rx tx : Float64) : MetricsSnapshot :=
  { Timestamp := 0, CPUUsagePercent := cpu, MemUsedPercent := mem, MemUsedBytes := 0,
    MemTotalBytes := 0, NetInterface := "", NetRxBytesPS := 0, NetTxBytesPS := 0,
    NetRxMbps := rx, NetTxMbps := tx }

/-- A configuration in which all six rules are enabled with the given thresholds:
`a` absolute, `r` relative, `x` for both network directions. -/
def configOf (a r x : Float64) (debounceSec : Int) : Config :=
  { SampleIntervalSec := 1, CollectionIntervalSec := 60, LogDir := "", RetentionDays := 30,
    Interface := "eth0",
    Spikes := { CPU := ⟨true, a, r⟩, Memory := ⟨true, a, r⟩, Network := ⟨true, x, x, r⟩ },
    Alerts := { CPU := ⟨true, a, r⟩, Memory := ⟨true, a⟩, Network := ⟨true, x, x⟩ },
    Scripts := { Dir := "", EnvFile := "", DebounceSec := debounceSec, TimeoutSec := 30,
                 Enabled := true },
    Env := [] }

/-- The three category names in the order in which the detectors report them. -/
def categories : List String := ["cpu", "memory", "network"]

/-- Whether the spike detector has the named category enabled. -/
def spikeEnabled (cfg : Config) (name : String) : Bool :=
  if name = "cpu" then cfg.Spikes.CPU.Enabled
  else if name = "memory" then cfg.Spikes.Memory.Enabled
  else if name = "network" then cfg.Spikes.Network.Enabled
  else false

/-- Whether the spike rule of the named category fires. -/
def spikeFires (cfg : Config) (current previous : MetricsSnapshot) (name : String) : Bool :=
  if name = "cpu" then spikes.detectCPUSpike cfg current previous
  else if name = "memory" then spikes.detectMemorySpike cfg current previous
  else if name = "network" then spikes.detectNetworkSpike cfg current previous
  else false

/-- Whether the alert detector has the named category enabled. -/
def alertEnabled (cfg : Config) (name : String) : Bool :=
  if name = "cpu" then cfg.Alerts.CPU.Enabled
  else if name = "memory" then cfg.Alerts.Memory.Enabled
  else if name = "network" then cfg.Alerts.Network.Enabled
  else false

/-- Whether the alert rule of the named category fires. -/
def alertFires (cfg : Config) (current previous : MetricsSnapshot) (name : String) : Bool :=
  if name = "cpu" then alerts.detectCPUAlert cfg current previous
  else if name = "memory" then alerts.detectMemoryAlert cfg current
  else if name = "network" then alerts.detectNetworkAlert cfg current
  else false

/-- Whether a category is admitted by the debouncer in the map `lastFired` at `now`: it has
no recorded instant, or `now.Sub(last)` reaches the debounce interval. -/
def admits (now : Int) (debounceDur : Int) (lastFired : String → Option Int)
    (category : String) : Bool :=
  match lastFired category with
  | none => true
  | some lastTime => decide (alerts.timeSub now lastTime ≥ debounceDur)

/-- An instant used in the debounce scenarios (any value would do). -/
def scenarioT : Int := 1700000000000000000

/-- One second as a `Duration`. -/
def second : Int := 1000000000

/-- The engine of the debounce scenarios: a 60 s debounce interval, `cpu` last fired 10 s
before `scenarioT`, `memory` and `network` never. -/
def scenarioEngine : alerts.Engine :=
  { cfg := configOf 100 50 1000 60
    lastFired := fun k => if k = "cpu" then some (scenarioT - 10 * second) else none }

/-- Every counter of `a` is at most the same counter of `b`: the counters did not go back. -/
def statsLE (a b : cpuStats) : Prop :=
  a.user ≤ b.user ∧ a.nice ≤ b.nice ∧ a.system ≤ b.system ∧ a.idle ≤ b.idle ∧
    a.iowait ≤ b.iowait ∧ a.irq ≤ b.irq ∧ a.softirq ≤ b.softirq ∧ a.steal ≤ b.steal

/-- The sum of the eight counters as a natural number, without reduction. -/
def plainTotal (s : cpuStats) : Nat :=
  s.user + s.nice + s.system + s.idle + s.iowait + s.irq + s.softirq + s.steal

/-- The `steal` counter read off the fields after the first eight: the ninth field when
there is one, 0 otherwise. -/
def stealField (more : List String) : Nat :=
  match more with
  | [] => 0
  | st :: _ => gostd.ParseUint st

/-- The counters that the columns `user nice system idle iowait irq softirq` and the fields
after them stand for. -/
def statsOfColumns (u n s i w q sq : String) (more : List String) : cpuStats :=
  { user := gostd.ParseUint u, nice := gostd.ParseUint n, system := gostd.ParseUint s,
    idle := gostd.ParseUint i, iowait := gostd.ParseUint w, irq := gostd.ParseUint q,
    softirq := gostd.ParseUint sq, steal := stealField more }

/-- A collector that has already sampled: CPU counters with total 10000 and idle 8500, byte
counters 1000 and 2000, sampled at `scenarioT`. -/
def sampledCollector : Collector :=
  { interfaceName := "eth0"
    prevCPUStats := ⟨1000, 0, 500, 8000, 500, 0, 0, 0⟩
    prevNetStats := ⟨1000, 2000⟩
    prevSampleTime := scenarioT
    initialized := true }

/-- The divisor of the byte-rate computation: the elapsed seconds when they are positive,
one second otherwise. -/
def rateDivisor (now prev : Int) : Float64 :=
  if durationSeconds (alerts.timeSub now prev) > 0 then
    durationSeconds (alerts.timeSub now prev)
  else 1

/-- A `/proc/net/dev` line of `eth0` with 1100 bytes received and 2300 bytes sent. -/
def netdevLine : String := "  eth0: 1100 0 0 0 0 0 0 0 2300 0 0 0 0 0 0 0"

/-- The collector left by a run of `Collect` calls that all failed, `none` when one of the
calls succeeded.  A call is the instant read from the clock and the kernel sources. -/
def failedCollects (c : Collector) : List (Int × Procfs) → Option Collector
  | [] => some c
  | call :: rest =>
    match Collect c call.1 call.2 with
    | (c2, .error _) => failedCollects c2 rest
    | (_, .ok _) => none

/-- Whether every call of a run of `Collect` calls failed in the cpu stage. -/
def failedInCPUStage (c : Collector) : List (Int × Procfs) → Bool
  | [] => true
  | call :: rest =>
    match Collect c call.1 call.2 with
    | (c2, .error (.cpu _)) => failedInCPUStage c2 rest
    | _ => false

/-- Kernel sources whose `/proc/meminfo` has no `MemTotal` line: the cpu stage succeeds and
the memory stage fails. -/
def memoryFailingProcfs : Procfs :=
  { stat := some ["cpu  10 0 0 0 0 0 0 0 0 0"], meminfo := some [], netdev := none }

/-- The collector after a call that failed after the cpu stage: counters stored, no network
sample yet. -/
def halfSampledCollector : Collector :=
  { interfaceName := "eth0", prevCPUStats := ⟨10, 0, 0, 0, 0, 0, 0, 0⟩,
    prevNetStats := ⟨0, 0⟩, prevSampleTime := 0, initialized := true }

/-- The collector `halfSampledCollector` after a cpu stage that read a `user` counter of
20. -/
def cpuSampledCollector : Collector :=
  { interfaceName := "eth0", prevCPUStats := ⟨20, 0, 0, 0, 0, 0, 0, 0⟩,
    prevNetStats := ⟨0, 0⟩, prevSampleTime := 0, initialized := true }

/-- Kernel sources on which all three stages succeed. -/
def goodProcfs : Procfs :=
  { stat := some ["cpu  20 0 0 0 0 0 0 0 0 0"]
    meminfo := some ["MemTotal:       100 kB", "MemFree:        10 kB",
                     "MemAvailable:   50 kB"]
    netdev := some [netdevLine] }

/-- Kernel sources in which the `user` counter is below the one of `sampledCollector` and
`MemAvailable` is above `MemTotal`. -/
def backwardsProcfs : Procfs :=
  { stat := some ["cpu  500 0 500 8600 500 0 0 0 0 0"]
    meminfo := some ["MemTotal:       100 kB", "MemAvailable:   200 kB"]
    netdev := some [netdevLine] }

/-- A meminfo line that `collectMemory` passes over: it starts with neither `MemTotal:` nor
`MemAvailable:`. -/
def noMemLine (line : String) : Prop :=
  gostd.HasPrefix line "MemTotal:" = false ∧ gostd.HasPrefix line "MemAvailable:" = false

/-- A `MemTotal:` line with at least two fields whose second field reads as `kB`. -/
def totalLine (line : String) (kB : Nat) : Prop :=
  gostd.HasPrefix line "MemTotal:" = true ∧ 2 ≤ (gostd.Fields line).length ∧
    gostd.ParseUint ((gostd.Fields line).getD 1 "") = kB

/-- A `MemAvailable:` line with at least two fields whose second field reads as `kB`. -/
def availableLine (line : String) (kB : Nat) : Prop :=
  gostd.HasPrefix line "MemTotal:" = false ∧ gostd.HasPrefix line "MemAvailable:" = true ∧
    2 ≤ (gostd.Fields line).length ∧ gostd.ParseUint ((gostd.Fields line).getD 1 "") = kB

/-- Kernel sources whose `MemAvailable` line reads 0 kB. -/
def zeroAvailableProcfs : Procfs :=
  { stat := some ["cpu  20 0 0 0 0 0 0 0 0 0"]
    meminfo := some ["MemTotal:       100 kB", "MemAvailable:   0 kB"]
    netdev := some [netdevLine] }

/-- A calendar date that `time.Parse` accepts in the layout `2006-01-02`. -/
def validDate (y m d : Nat) : Prop :=
  y ≤ 9999 ∧ 1 ≤ m ∧ m ≤ 12 ∧ 1 ≤ d ∧ d ≤ storage.daysIn m y

/-- The character of a decimal digit. -/
def digitChar (k : Nat) : Char := Char.ofNat (48 + k)

/-- The text `YYYY-MM-DD` of a date, zero padded. -/
def dateChars (y m d : Nat) : List Char :=
  [digitChar (y / 1000), digitChar (y / 100 % 10), digitChar (y / 10 % 10), digitChar (y % 10),
    Char.ofNat 45, digitChar (m / 10), digitChar (m % 10), Char.ofNat 45,
    digitChar (d / 10), digitChar (d % 10)]

/-- The log file name `metrics-YYYY-MM-DD.ndjson` of a date. -/
def logFileName (y m d : Nat) : String :=
  String.mk ("metrics-".toList ++ dateChars y m d ++ ".ndjson".toList)

/-- The day number of the current UTC date: whole days since the first of January of
year 1. -/
def todayUTC (now : Int) : Int := now / storage.nsPerDay

/-- The instant of the rotation scenarios: 4 November 2026, 12:00:00 UTC. -/
def scenarioNoon : Int := storage.dayNumber 2026 11 4 * storage.nsPerDay + 43200000000000

/-- The instant 4 November 2026, 00:00:00 UTC. -/
def scenarioMidnight : Int := storage.dayNumber 2026 11 4 * storage.nsPerDay

/-- Log files dated 1, 7, 8 and 30 days before 4 November 2026, a directory and a file
of another name. -/
def scenarioLogDir : List storage.DirEntry :=
  [⟨"metrics-2026-11-03.ndjson", false⟩, ⟨"metrics-2026-10-28.ndjson", false⟩,
   ⟨"metrics-2026-10-27.ndjson", false⟩, ⟨"metrics-2026-10-05.ndjson", false⟩,
   ⟨"metrics-2020-01-01.ndjson", true⟩, ⟨"metrics-2020-01-01.ndjson.gz", false⟩]

/-- The six fields that `validate` tests, as `applyDefaults` leaves them according to the
specification: a non-positive number and an empty interface are replaced by the default. -/
def defaultedFields (c : Config) : Int × Int × Int × String × Int × Int :=
  (if c.SampleIntervalSec ≤ 0 then 1 else c.SampleIntervalSec,
    if c.CollectionIntervalSec ≤ 0 then 60 else c.CollectionIntervalSec,
    if c.RetentionDays ≤ 0 then 30 else c.RetentionDays,
    if c.Interface = "" then "eth0" else c.Interface,
    if c.Scripts.DebounceSec ≤ 0 then 60 else c.Scripts.DebounceSec,
    if c.Scripts.TimeoutSec ≤ 0 then 30 else c.Scripts.TimeoutSec)

/-- The six fields that `validate` tests. -/
def validatedFields (c : Config) : Int × Int × Int × String × Int × Int :=
  (c.SampleIntervalSec, c.CollectionIntervalSec, c.RetentionDays, c.Interface,
    c.Scripts.DebounceSec, c.Scripts.TimeoutSec)

/-- A parsed configuration whose durations are zero or negative and whose strings are
empty. -/
def emptyConfig : Config :=
  { SampleIntervalSec := 0, CollectionIntervalSec := -5, LogDir := "", RetentionDays := 0,
    Interface := "",
    Spikes := { CPU := ⟨false, 0, 0⟩, Memory := ⟨false, 0, 0⟩, Network := ⟨false, 0, 0, 0⟩ },
    Alerts := { CPU := ⟨false, 0, 0⟩, Memory := ⟨false, 0⟩, Network := ⟨false, 0, 0⟩ },
    Scripts := { Dir := "", EnvFile := "", DebounceSec := -1, TimeoutSec := 0,
                 Enabled := false },
    Env := [] }

end spec

/-! ## Theorems: the detectors -/

section Detectors

open spec

theorem detectCPUSpike_iff (cfg : Config) (current previous : MetricsSnapshot) :
    spikes.detectCPUSpike cfg current previous = true ↔
      categoryRule cfg.Spikes.CPU.AbsoluteThreshold cfg.Spikes.CPU.RelativeThreshold
        current.CPUUsagePercent previous.CPUUsagePercent := by
  unfold spikes.detectCPUSpike categoryRule relativeChange
  simp only []
  split_ifs <;> simp_all

theorem detectMemorySpike_iff (cfg : Config) (current previous : MetricsSnapshot) :
    spikes.detectMemorySpike cfg current previous = true ↔
      categoryRule cfg.Spikes.Memory.AbsoluteThreshold cfg.Spikes.Memory.RelativeThreshold
        current.MemUsedPercent previous.MemUsedPercent := by
  unfold spikes.detectMemorySpike categoryRule relativeChange
  simp only []
  split_ifs <;> simp_all

theorem detectCPUAlert_iff (cfg : Config) (current previous : MetricsSnapshot) :
    alerts.detectCPUAlert cfg current previous = true ↔
      categoryRule cfg.Alerts.CPU.AbsoluteThreshold cfg.Alerts.CPU.RelativeThreshold
        current.CPUUsagePercent previous.CPUUsagePercent := by
  unfold alerts.detectCPUAlert categoryRule relativeChange
  simp only []
  split_ifs <;> simp_all

theorem detectMemoryAlert_iff (cfg : Config) (current previous : MetricsSnapshot) :
    alerts.detectMemoryAlert cfg current = true ↔
      categoryRule cfg.Alerts.Memory.AbsoluteThreshold 0
        current.MemUsedPercent previous.MemUsedPercent := by
  unfold alerts.detectMemoryAlert categoryRule
  simp

theorem categoryRule_of_eq_absolute (a r c p : Float64) (h : c = a) : categoryRule a r c p :=
  Or.inl (le_of_eq h.symm)

theorem categoryRule_zero_previous (a r c : Float64) : categoryRule a r c 0 ↔ c ≥ a := by
  simp [categoryRule]

/-- The relative test is the binary64 one: from 50 to 78.5 the three `float64` operations
give 56.99999999999999, not 57, so with relative threshold 57 (absolute threshold 100,
network thresholds 1000) none of the four rules that have a relative test fires. -/
theorem relative_test_rounds :
    float64.mul (float64.div (float64.sub (157 / 2) 50) 50) 100
      = 8022036836253695 / 140737488355328 ∧
    spikes.detectCPUSpike (configOf 100 57 1000 60)
      (snapshotOf (157 / 2) 0 0 0) (snapshotOf 50 0 0 0) = false ∧
    spikes.detectMemorySpike (configOf 100 57 1000 60)
      (snapshotOf 0 (157 / 2) 0 0) (snapshotOf 0 50 0 0) = false ∧
    alerts.detectCPUAlert (configOf 100 57 1000 60)
      (snapshotOf (157 / 2) 0 0 0) (snapshotOf 50 0 0 0) = false ∧
    spikes.detectNetworkSpike (configOf 100 57 1000 60)
      (snapshotOf 0 0 (157 / 2) 0) (snapshotOf 0 0 50 0) = false := by
  refine ⟨le_antisymm ?_ ?_, ?_, ?_, ?_, ?_⟩ <;> with_unfolding_all decide

/-- C1. For the CPU and memory categories of both detectors the rule fires exactly when
`current ≥ absolute_threshold`, or `previous > 0`, `relative_threshold > 0` and
`(current - previous) / previous * 100 ≥ relative_threshold`, the three operations being the
`float64` operations of the code (the alert memory rule has no relative threshold and is the
rule with relative threshold 0).  A value equal to the absolute threshold fires, a computed
relative change equal to the relative threshold fires, with a zero previous value only the
absolute test is left, and with absolute 100 and relative 50 a memory spike fires from 40 to
62 but not from 0 to 62. -/
theorem C1_category_rule (cfg : Config) (current previous : MetricsSnapshot) :
    (spikes.detectCPUSpike cfg current previous = true ↔
      (current.CPUUsagePercent ≥ cfg.Spikes.CPU.AbsoluteThreshold ∨
        (previous.CPUUsagePercent > 0 ∧ cfg.Spikes.CPU.RelativeThreshold > 0 ∧
          float64.mul (float64.div (float64.sub current.CPUUsagePercent previous.CPUUsagePercent)
              previous.CPUUsagePercent) 100
            ≥ cfg.Spikes.CPU.RelativeThreshold))) ∧
    (spikes.detectMemorySpike cfg current previous = true ↔
      (current.MemUsedPercent ≥ cfg.Spikes.Memory.AbsoluteThreshold ∨
        (previous.MemUsedPercent > 0 ∧ cfg.Spikes.Memory.RelativeThreshold > 0 ∧
          float64.mul (float64.div (float64.sub current.MemUsedPercent previous.MemUsedPercent)
              previous.MemUsedPercent) 100
            ≥ cfg.Spikes.Memory.RelativeThreshold))) ∧
    (alerts.detectCPUAlert cfg current previous = true ↔
      (current.CPUUsagePercent ≥ cfg.Alerts.CPU.AbsoluteThreshold ∨
        (previous.CPUUsagePercent > 0 ∧ cfg.Alerts.CPU.RelativeThreshold > 0 ∧
          float64.mul (float64.div (float64.sub current.CPUUsagePercent previous.CPUUsagePercent)
              previous.CPUUsagePercent) 100
            ≥ cfg.Alerts.CPU.RelativeThreshold))) ∧
    (alerts.detectMemoryAlert cfg current = true ↔
      (current.MemUsedPercent ≥ cfg.Alerts.Memory.AbsoluteThreshold ∨
        (previous.MemUsedPercent > 0 ∧ (0 : Float64) > 0 ∧
          float64.mul (float64.div (float64.sub current.MemUsedPercent previous.MemUsedPercent)
              previous.MemUsedPercent) 100
            ≥ 0))) ∧
    (current.CPUUsagePercent = cfg.Spikes.CPU.AbsoluteThreshold →
      spikes.detectCPUSpike cfg current previous = true) ∧
    (current.MemUsedPercent = cfg.Spikes.Memory.AbsoluteThreshold →
      spikes.detectMemorySpike cfg current previous = true) ∧
    (current.CPUUsagePercent = cfg.Alerts.CPU.AbsoluteThreshold →
      alerts.detectCPUAlert cfg current previous = true) ∧
    (current.MemUsedPercent = cfg.Alerts.Memory.AbsoluteThreshold →
      alerts.detectMemoryAlert cfg current = true) ∧
    (previous.CPUUsagePercent > 0 → cfg.Spikes.CPU.RelativeThreshold > 0 →
      float64.mul (float64.div (float64.sub current.CPUUsagePercent previous.CPUUsagePercent)
              previous.CPUUsagePercent) 100
        = cfg.Spikes.CPU.RelativeThreshold →
      spikes.detectCPUSpike cfg current previous = true) ∧
    (previous.MemUsedPercent > 0 → cfg.Spikes.Memory.RelativeThreshold > 0 →
      float64.mul (float64.div (float64.sub current.MemUsedPercent previous.MemUsedPercent)
              previous.MemUsedPercent) 100
        = cfg.Spikes.Memory.RelativeThreshold →
      spikes.detectMemorySpike cfg current previous = true) ∧
    (previous.CPUUsagePercent > 0 → cfg.Alerts.CPU.RelativeThreshold > 0 →
      float64.mul (float64.div (float64.sub current.CPUUsagePercent previous.CPUUsagePercent)
              previous.CPUUsagePercent) 100
        = cfg.Alerts.CPU.RelativeThreshold →
      alerts.detectCPUAlert cfg current previous = true) ∧
    (previous.CPUUsagePercent = 0 →
      (spikes.detectCPUSpike cfg current previous = true ↔
        current.CPUUsagePercent ≥ cfg.Spikes.CPU.AbsoluteThreshold) ∧
      (alerts.detectCPUAlert cfg current previous = true ↔
        current.CPUUsagePercent ≥ cfg.Alerts.CPU.AbsoluteThreshold)) ∧
    (previous.MemUsedPercent = 0 →
      (spikes.detectMemorySpike cfg current previous = true ↔
        current.MemUsedPercent ≥ cfg.Spikes.Memory.AbsoluteThreshold)) ∧
    spikes.detectMemorySpike (configOf 100 50 1000 60)
      (snapshotOf 0 62 0 0) (snapshotOf 0 40 0 0) = true ∧
    spikes.detectMemorySpike (configOf 100 50 1000 60)
      (snapshotOf 0 62 0 0) (snapshotOf 0 0 0 0) = false := by
  have h1 := detectCPUSpike_iff cfg current previous
  have h2 := detectMemorySpike_iff cfg current previous
  have h3 := detectCPUAlert_iff cfg current previous
  have h4 := detectMemoryAlert_iff cfg current previous
  refine ⟨h1, h2, h3, h4, ?_, ?_, ?_, ?_, ?_, ?_, ?_, ?_, ?_, ?_, ?_⟩
  · intro h; exact h1.mpr (categoryRule_of_eq_absolute _ _ _ _ h)
  · intro h; exact h2.mpr (categoryRule_of_eq_absolute _ _ _ _ h)
  · intro h; exact h3.mpr (categoryRule_of_eq_absolute _ _ _ _ h)
  · intro h; exact h4.mpr (categoryRule_of_eq_absolute _ _ _ _ h)
  · intro hp hr h; exact h1.mpr (Or.inr ⟨hp, hr, le_of_eq h.symm⟩)
  · intro hp hr h; exact h2.mpr (Or.inr ⟨hp, hr, le_of_eq h.symm⟩)
  · intro hp hr h; exact h3.mpr (Or.inr ⟨hp, hr, le_of_eq h.symm⟩)
  · intro h
    rw [h] at h1 h3
    exact ⟨h1.trans (categoryRule_zero_previous _ _ _),
      h3.trans (categoryRule_zero_previous _ _ _)⟩
  · intro h
    rw [h] at h2
    exact h2.trans (categoryRule_zero_previous _ _ _)
  · with_unfolding_all decide
  · with_unfolding_all decide

theorem detectNetworkSpike_iff (cfg : Config) (current previous : MetricsSnapshot) :
    spikes.detectNetworkSpike cfg current previous = true ↔
      (current.NetRxMbps ≥ cfg.Spikes.Network.RxMbpsThreshold ∨
        current.NetTxMbps ≥ cfg.Spikes.Network.TxMbpsThreshold ∨
        (cfg.Spikes.Network.RelativeThreshold > 0 ∧
          ((previous.NetRxMbps > 0 ∧
              float64.mul (float64.div (float64.sub current.NetRxMbps previous.NetRxMbps)
              previous.NetRxMbps) 100
                ≥ cfg.Spikes.Network.RelativeThreshold) ∨
            (previous.NetTxMbps > 0 ∧
              float64.mul (float64.div (float64.sub current.NetTxMbps previous.NetTxMbps)
              previous.NetTxMbps) 100
                ≥ cfg.Spikes.Network.RelativeThreshold)))) := by
  unfold spikes.detectNetworkSpike
  simp only []
  split_ifs <;> simp_all
  rename_i h1 h2
  intro hr
  exact ⟨fun hp => absurd hr (not_lt.mpr (h1 hp)), fun hp => absurd hr (not_lt.mpr (h2 hp))⟩

/-- C2. The spike detector's network rule fires exactly when `rx_mbps ≥ rx_threshold`, or
`tx_mbps ≥ tx_threshold`, or the relative threshold is positive and, for rx or for tx, the
previous value of that direction is positive and its relative change
`(current - previous) / previous * 100`, computed in `float64` as the code does, reaches the
relative threshold.  The alert detector's network rule fires exactly when one of the two
absolute tests holds, so it takes the same value for every previous snapshot. -/
theorem C2_network_rule (cfg : Config) (current previous previous2 : MetricsSnapshot) :
    (spikes.detectNetworkSpike cfg current previous = true ↔
      (current.NetRxMbps ≥ cfg.Spikes.Network.RxMbpsThreshold ∨
        current.NetTxMbps ≥ cfg.Spikes.Network.TxMbpsThreshold ∨
        (cfg.Spikes.Network.RelativeThreshold > 0 ∧
          ((previous.NetRxMbps > 0 ∧
              float64.mul (float64.div (float64.sub current.NetRxMbps previous.NetRxMbps)
              previous.NetRxMbps) 100
                ≥ cfg.Spikes.Network.RelativeThreshold) ∨
            (previous.NetTxMbps > 0 ∧
              float64.mul (float64.div (float64.sub current.NetTxMbps previous.NetTxMbps)
              previous.NetTxMbps) 100
                ≥ cfg.Spikes.Network.RelativeThreshold))))) ∧
    (alerts.detectNetworkAlert cfg current = true ↔
      (current.NetRxMbps ≥ cfg.Alerts.Network.RxMbpsThreshold ∨
        current.NetTxMbps ≥ cfg.Alerts.Network.TxMbpsThreshold)) ∧
    ((alerts.Detect cfg current previous).contains "network" =
      (alerts.Detect cfg current previous2).contains "network") := by
  refine ⟨detectNetworkSpike_iff cfg current previous, ?_, ?_⟩
  · simp [alerts.detectNetworkAlert]
  · unfold alerts.Detect
    simp only []
    split_ifs <;> simp

theorem spikes_Detect_eq_filter (cfg : Config) (current previous : MetricsSnapshot) :
    spikes.Detect cfg current previous =
      categories.filter
        (fun name => spikeEnabled cfg name && spikeFires cfg current previous name) := by
  unfold spikes.Detect categories spikeEnabled spikeFires
  cases cfg.Spikes.CPU.Enabled <;> cases cfg.Spikes.Memory.Enabled <;>
    cases cfg.Spikes.Network.Enabled <;>
    cases spikes.detectCPUSpike cfg current previous <;>
    cases spikes.detectMemorySpike cfg current previous <;>
    cases spikes.detectNetworkSpike cfg current previous <;>
    simp [List.filter]

theorem alerts_Detect_eq_filter (cfg : Config) (current previous : MetricsSnapshot) :
    alerts.Detect cfg current previous =
      categories.filter
        (fun name => alertEnabled cfg name && alertFires cfg current previous name) := by
  unfold alerts.Detect categories alertEnabled alertFires
  cases cfg.Alerts.CPU.Enabled <;> cases cfg.Alerts.Memory.Enabled <;>
    cases cfg.Alerts.Network.Enabled <;>
    cases alerts.detectCPUAlert cfg current previous <;>
    cases alerts.detectMemoryAlert cfg current <;>
    cases alerts.detectNetworkAlert cfg current <;>
    simp [List.filter]

theorem categories_nodup : categories.Nodup := by
  unfold categories; decide

/-- C3. For both detectors the result of `Detect` is the list `["cpu", "memory", "network"]`
filtered to the categories that are enabled and whose rule fires.  Hence the names come in
that order, each at most once, a name is reported exactly when its category is enabled and
its rule fires, a disabled category is never reported, and with all three categories
disabled the result is empty. -/
theorem C3_detect_is_filtered_categories (cfg : Config) (current previous : MetricsSnapshot) :
    (spikes.Detect cfg current previous =
        ["cpu", "memory", "network"].filter
          (fun name => spikeEnabled cfg name && spikeFires cfg current previous name) ∧
      alerts.Detect cfg current previous =
        ["cpu", "memory", "network"].filter
          (fun name => alertEnabled cfg name && alertFires cfg current previous name)) ∧
    ((spikes.Detect cfg current previous).Sublist ["cpu", "memory", "network"] ∧
      (alerts.Detect cfg current previous).Sublist ["cpu", "memory", "network"]) ∧
    ((spikes.Detect cfg current previous).Nodup ∧
      (alerts.Detect cfg current previous).Nodup) ∧
    (("cpu" ∈ spikes.Detect cfg current previous ↔
        cfg.Spikes.CPU.Enabled = true ∧ spikes.detectCPUSpike cfg current previous = true) ∧
      ("memory" ∈ spikes.Detect cfg current previous ↔
        cfg.Spikes.Memory.Enabled = true ∧
          spikes.detectMemorySpike cfg current previous = true) ∧
      ("network" ∈ spikes.Detect cfg current previous ↔
        cfg.Spikes.Network.Enabled = true ∧
          spikes.detectNetworkSpike cfg current previous = true)) ∧
    (("cpu" ∈ alerts.Detect cfg current previous ↔
        cfg.Alerts.CPU.Enabled = true ∧ alerts.detectCPUAlert cfg current previous = true) ∧
      ("memory" ∈ alerts.Detect cfg current previous ↔
        cfg.Alerts.Memory.Enabled = true ∧ alerts.detectMemoryAlert cfg current = true) ∧
      ("network" ∈ alerts.Detect cfg current previous ↔
        cfg.Alerts.Network.Enabled = true ∧ alerts.detectNetworkAlert cfg current = true)) ∧
    (cfg.Spikes.CPU.Enabled = false → cfg.Spikes.Memory.Enabled = false →
      cfg.Spikes.Network.Enabled = false → spikes.Detect cfg current previous = []) ∧
    (cfg.Alerts.CPU.Enabled = false → cfg.Alerts.Memory.Enabled = false →
      cfg.Alerts.Network.Enabled = false → alerts.Detect cfg current previous = []) := by
  have hs := spikes_Detect_eq_filter cfg current previous
  have ha := alerts_Detect_eq_filter cfg current previous
  have hsub : ∀ p : String → Bool, (categories.filter p).Sublist categories :=
    fun p => List.filter_sublist _
  refine ⟨⟨hs, ha⟩, ⟨?_, ?_⟩, ⟨?_, ?_⟩, ⟨?_, ?_, ?_⟩, ⟨?_, ?_, ?_⟩, ?_, ?_⟩
  · rw [hs]; exact hsub _
  · rw [ha]; exact hsub _
  · rw [hs]; exact (hsub _).nodup categories_nodup
  · rw [ha]; exact (hsub _).nodup categories_nodup
  · rw [hs]; simp [categories, List.mem_filter, spikeEnabled, spikeFires]
  · rw [hs]; simp [categories, List.mem_filter, spikeEnabled, spikeFires]
  · rw [hs]; simp [categories, List.mem_filter, spikeEnabled, spikeFires]
  · rw [ha]; simp [categories, List.mem_filter, alertEnabled, alertFires]
  · rw [ha]; simp [categories, List.mem_filter, alertEnabled, alertFires]
  · rw [ha]; simp [categories, List.mem_filter, alertEnabled, alertFires]
  · intro h1 h2 h3; simp [spikes.Detect, h1, h2, h3]
  · intro h1 h2 h3; simp [alerts.Detect, h1, h2, h3]

end Detectors

/-! ## Theorems: the debouncer -/

section Debouncer

open spec alerts

theorem shouldExecuteLoop_cons (now : Int) (d : Int) (c : String) (rest : List String)
    (lf : String → Option Int) (b : Bool) :
    shouldExecuteLoop now d (c :: rest) lf b =
      if admits now d lf c = true then shouldExecuteLoop now d rest (setLastFired lf c now) true
      else shouldExecuteLoop now d rest lf b := by
  unfold admits
  rw [shouldExecuteLoop]
  cases h : lf c with
  | none => simp
  | some t => simp only [decide_eq_true_eq]

theorem shouldExecuteLoop_flag_true (now : Int) (d : Int) (cats : List String) :
    ∀ lf : String → Option Int, (shouldExecuteLoop now d cats lf true).2 = true := by
  induction cats with
  | nil => intro lf; rfl
  | cons c rest ih =>
    intro lf
    rw [shouldExecuteLoop_cons]
    split_ifs
    · exact ih _
    · exact ih _

theorem shouldExecuteLoop_flag (now : Int) (d : Int) (cats : List String) :
    ∀ (lf : String → Option Int) (b : Bool),
      (shouldExecuteLoop now d cats lf b).2 = true ↔
        (b = true ∨ ∃ c ∈ cats, admits now d lf c = true) := by
  induction cats with
  | nil => intro lf b; simp [shouldExecuteLoop]
  | cons c rest ih =>
    intro lf b
    rw [shouldExecuteLoop_cons]
    by_cases hc : admits now d lf c = true
    · rw [if_pos hc]
      simp only [shouldExecuteLoop_flag_true, true_iff]
      exact Or.inr ⟨c, List.mem_cons_self _ _, hc⟩
    · rw [if_neg hc, ih lf b]
      simp only [List.mem_cons, exists_eq_or_imp]
      tauto

theorem admits_setLastFired_of_ne (now : Int) (d : Int) (lf : String → Option Int)
    (c k : String) (h : k ≠ c) :
    admits now d (setLastFired lf c now) k = admits now d lf k := by
  simp [admits, setLastFired, h]

theorem shouldExecuteLoop_map (now : Int) (d : Int) (cats : List String) :
    ∀ (lf : String → Option Int) (b : Bool) (k : String),
      (shouldExecuteLoop now d cats lf b).1 k =
        if k ∈ cats ∧ admits now d lf k = true then some now else lf k := by
  induction cats with
  | nil => intro lf b k; simp [shouldExecuteLoop]
  | cons c rest ih =>
    intro lf b k
    rw [shouldExecuteLoop_cons]
    by_cases hc : admits now d lf c = true
    · rw [if_pos hc, ih]
      by_cases hk : k = c
      · subst hk
        simp [hc, setLastFired]
      · rw [admits_setLastFired_of_ne now d lf c k hk]
        simp [hk, setLastFired]
    · rw [if_neg hc, ih]
      by_cases hk : k = c
      · subst hk
        simp [hc]
      · simp [hk]

theorem wrapInt64_le_max (x : Int) : wrapInt64 x ≤ maxDuration := by
  unfold wrapInt64 maxDuration
  have h := Int.emod_lt_of_pos (x + 2 ^ 63) (show (0 : Int) < 2 ^ 64 by norm_num)
  show (x + 2 ^ 63) % 2 ^ 64 - 2 ^ 63 ≤ (2 ^ 63 - 1 : Int)
  norm_num at h ⊢
  omega

theorem timeSub_ge_iff (now t d : Int) (hpos : 0 < d) (hmax : d ≤ maxDuration) :
    timeSub now t ≥ d ↔ now - t ≥ d := by
  have hmax2 : d ≤ (9223372036854775807 : Int) := by
    have : maxDuration = (9223372036854775807 : Int) := by unfold maxDuration; norm_num
    rw [this] at hmax; exact hmax
  have e1 : maxDuration = (9223372036854775807 : Int) := by unfold maxDuration; norm_num
  have e2 : minDuration = (-9223372036854775808 : Int) := by unfold minDuration; norm_num
  unfold timeSub
  rw [e1, e2]
  split_ifs <;> constructor <;> intro h <;> omega

theorem admits_iff (now d : Int) (lf : String → Option Int) (c : String) :
    admits now d lf c = true ↔
      (lf c = none ∨ ∃ t, lf c = some t ∧ timeSub now t ≥ d) := by
  unfold admits
  cases h : lf c with
  | none => simp
  | some t => simp

theorem admits_iff_exact (now d : Int) (lf : String → Option Int) (c : String)
    (hpos : 0 < d) (hmax : d ≤ maxDuration) :
    admits now d lf c = true ↔ (lf c = none ∨ ∃ t, lf c = some t ∧ now - t ≥ d) := by
  rw [admits_iff]
  constructor
  · rintro (h | ⟨t, h, ht⟩)
    · exact Or.inl h
    · exact Or.inr ⟨t, h, (timeSub_ge_iff now t d hpos hmax).mp ht⟩
  · rintro (h | ⟨t, h, ht⟩)
    · exact Or.inl h
    · exact Or.inr ⟨t, h, (timeSub_ge_iff now t d hpos hmax).mpr ht⟩

theorem ShouldExecuteScripts_flag (e : Engine) (now : Int) (alertTypes : List String) :
    (ShouldExecuteScripts e now alertTypes).2 = true ↔
      ∃ c ∈ alertTypes, admits now (debounceDur e.cfg) e.lastFired c = true := by
  unfold ShouldExecuteScripts
  cases alertTypes with
  | nil => simp
  | cons a rest =>
    simp only [List.length_cons, Nat.add_one_ne_zero, if_false]
    rw [shouldExecuteLoop_flag]
    simp

theorem ShouldExecuteScripts_map (e : Engine) (now : Int) (alertTypes : List String)
    (k : String) :
    (ShouldExecuteScripts e now alertTypes).1.lastFired k =
      if k ∈ alertTypes ∧ admits now (debounceDur e.cfg) e.lastFired k = true then some now
      else e.lastFired k := by
  unfold ShouldExecuteScripts
  cases alertTypes with
  | nil => simp
  | cons a rest =>
    simp only [List.length_cons, Nat.add_one_ne_zero, if_false]
    rw [shouldExecuteLoop_map]

theorem debounceDur_configOf_sixty (a r x : Float64) :
    debounceDur (configOf a r x 60) = 60000000000 := by
  unfold debounceDur wrapInt64 configOf
  norm_num

/-- For a `scripts.debounce_sec` from 1 to 9223372036 the interval the code computes is
that many seconds: the product does not leave the range of a `Duration`. -/
theorem debounceDur_of_range (cfg : Config) (h1 : 1 ≤ cfg.Scripts.DebounceSec)
    (h2 : cfg.Scripts.DebounceSec ≤ 9223372036) :
    debounceDur cfg = cfg.Scripts.DebounceSec * 1000000000 := by
  unfold debounceDur wrapInt64
  norm_num
  omega

/-- Above that range the product wraps: with `scripts.debounce_sec = 10000000000` the
interval the code computes is negative, and a category recorded one second ago is admitted
again. -/
theorem debounceDur_wraps :
    debounceDur (configOf 100 50 1000 10000000000) = -8446744073709551616 ∧
    (ShouldExecuteScripts
      { cfg := configOf 100 50 1000 10000000000,
        lastFired := fun _ => some (scenarioT - second) } scenarioT ["cpu"]).2 = true := by
  have hd : debounceDur (configOf 100 50 1000 10000000000) = -8446744073709551616 := by
    unfold debounceDur wrapInt64 configOf
    norm_num
  refine ⟨hd, ?_⟩
  rw [ShouldExecuteScripts_flag]
  refine ⟨"cpu", List.mem_singleton.mpr rfl, ?_⟩
  show admits scenarioT (debounceDur (configOf 100 50 1000 10000000000))
    (fun _ => some (scenarioT - second)) "cpu" = true
  rw [hd]
  have e1 : maxDuration = (9223372036854775807 : Int) := by unfold maxDuration; norm_num
  have e2 : minDuration = (-9223372036854775808 : Int) := by unfold minDuration; norm_num
  simp [admits, timeSub, e1, e2, scenarioT, second]

theorem ShouldExecuteScripts_cfg (e : Engine) (now : Int) (alertTypes : List String) :
    (ShouldExecuteScripts e now alertTypes).1.cfg = e.cfg := by
  unfold ShouldExecuteScripts
  split_ifs <;> rfl

/-- Two rounds `["cpu"]` on a new engine, the second `delta` after the first: the first is
admitted, the second exactly when `delta` reaches the interval. -/
theorem two_rounds (cfg : Config) (T delta : Int) (hpos : 0 < debounceDur cfg) :
    (ShouldExecuteScripts (NewEngine cfg) T ["cpu"]).2 = true ∧
    ((ShouldExecuteScripts (ShouldExecuteScripts (NewEngine cfg) T ["cpu"]).1
        (T + delta) ["cpu"]).2 = true ↔ delta ≥ debounceDur cfg) := by
  have hadm : admits T (debounceDur (NewEngine cfg).cfg) (NewEngine cfg).lastFired "cpu"
      = true := by
    simp [admits, NewEngine]
  have h1 : (ShouldExecuteScripts (NewEngine cfg) T ["cpu"]).2 = true := by
    rw [ShouldExecuteScripts_flag]
    exact ⟨"cpu", List.mem_singleton.mpr rfl, hadm⟩
  refine ⟨h1, ?_⟩
  have hmap := ShouldExecuteScripts_map (NewEngine cfg) T ["cpu"] "cpu"
  rw [if_pos ⟨List.mem_singleton.mpr rfl, hadm⟩] at hmap
  have hcfg : (ShouldExecuteScripts (NewEngine cfg) T ["cpu"]).1.cfg = cfg :=
    ShouldExecuteScripts_cfg _ _ _
  have hsub : T + delta - T = delta := by ring
  rw [ShouldExecuteScripts_flag, hcfg]
  constructor
  · rintro ⟨c, hc, h⟩
    have hc2 : c = "cpu" := List.mem_singleton.mp hc
    subst hc2
    rcases (admits_iff_exact _ _ _ _ hpos (wrapInt64_le_max _)).mp h with hn | ⟨t, ht, hge⟩
    · rw [hmap] at hn
      exact absurd hn (by simp)
    · rw [hmap] at ht
      have htt : T = t := Option.some.inj ht
      rw [← htt, hsub] at hge
      exact hge
  · intro h
    refine ⟨"cpu", List.mem_singleton.mpr rfl, ?_⟩
    exact (admits_iff_exact _ _ _ _ hpos (wrapInt64_le_max _)).mpr
      (Or.inr ⟨T, hmap, by rw [hsub]; exact h⟩)

/-- C4. The debounce interval is `scripts.debounce_sec` seconds as the code computes it,
`time.Duration(debounce_sec) * time.Second` in 64-bit arithmetic; that is `debounce_sec`
seconds for every `debounce_sec` from 1 to 9223372036.  Whenever this interval is positive,
`ShouldExecuteScripts` returns true exactly when the list is non-empty and some category in
it has no recorded last-fired instant or has `now - last_fired ≥ interval`, and it returns
false exactly when the list is empty or every category in it was recorded less than the
interval ago.  For every `debounce_sec = d` in that range, rounds `["cpu"]` at `T` and
`T + delta` on a new engine return true and then true exactly when `delta ≥ d` seconds;
with a 60 s interval, rounds at `T` and `T + 30 s` return true and then false. -/
theorem C4_should_execute_iff (e : Engine) (now : Int) (alertTypes : List String)
    (hpos : 0 < wrapInt64 (e.cfg.Scripts.DebounceSec * 1000000000)) :
    ((ShouldExecuteScripts e now alertTypes).2 = true ↔
      (alertTypes ≠ [] ∧ ∃ c ∈ alertTypes,
        (e.lastFired c = none ∨
          ∃ t, e.lastFired c = some t ∧
            now - t ≥ wrapInt64 (e.cfg.Scripts.DebounceSec * 1000000000)))) ∧
    ((ShouldExecuteScripts e now alertTypes).2 = false ↔
      (alertTypes = [] ∨ ∀ c ∈ alertTypes,
        ∃ t, e.lastFired c = some t ∧
          now - t < wrapInt64 (e.cfg.Scripts.DebounceSec * 1000000000))) ∧
    (1 ≤ e.cfg.Scripts.DebounceSec → e.cfg.Scripts.DebounceSec ≤ 9223372036 →
      wrapInt64 (e.cfg.Scripts.DebounceSec * 1000000000)
        = e.cfg.Scripts.DebounceSec * 1000000000) ∧
    (∀ d T delta : Int, 1 ≤ d → d ≤ 9223372036 →
      (ShouldExecuteScripts (NewEngine (configOf 100 50 1000 d)) T ["cpu"]).2 = true ∧
      ((ShouldExecuteScripts
          (ShouldExecuteScripts (NewEngine (configOf 100 50 1000 d)) T ["cpu"]).1
          (T + delta) ["cpu"]).2 = true ↔ delta ≥ d * 1000000000)) ∧
    (∀ T : Int,
      (ShouldExecuteScripts (NewEngine (configOf 100 50 1000 60)) T ["cpu"]).2 = true ∧
      (ShouldExecuteScripts
        (ShouldExecuteScripts (NewEngine (configOf 100 50 1000 60)) T ["cpu"]).1
        (T + 30 * second) ["cpu"]).2 = false) := by
  have hd : debounceDur e.cfg = wrapInt64 (e.cfg.Scripts.DebounceSec * 1000000000) := rfl
  rw [← hd] at hpos ⊢
  have hmax : debounceDur e.cfg ≤ maxDuration := wrapInt64_le_max _
  have key : (ShouldExecuteScripts e now alertTypes).2 = true ↔
      ∃ c ∈ alertTypes, (e.lastFired c = none ∨
          ∃ t, e.lastFired c = some t ∧ now - t ≥ debounceDur e.cfg) := by
    rw [ShouldExecuteScripts_flag]
    constructor
    · rintro ⟨c, hc, h⟩
      exact ⟨c, hc, (admits_iff_exact now _ e.lastFired c hpos hmax).mp h⟩
    · rintro ⟨c, hc, h⟩
      exact ⟨c, hc, (admits_iff_exact now _ e.lastFired c hpos hmax).mpr h⟩
  have scen : ∀ d T delta : Int, 1 ≤ d → d ≤ 9223372036 →
      (ShouldExecuteScripts (NewEngine (configOf 100 50 1000 d)) T ["cpu"]).2 = true ∧
      ((ShouldExecuteScripts
          (ShouldExecuteScripts (NewEngine (configOf 100 50 1000 d)) T ["cpu"]).1
          (T + delta) ["cpu"]).2 = true ↔ delta ≥ d * 1000000000) := by
    intro d T delta h1 h2
    have hdd : debounceDur (configOf 100 50 1000 d) = d * 1000000000 :=
      debounceDur_of_range (configOf 100 50 1000 d) h1 h2
    have hp : 0 < debounceDur (configOf 100 50 1000 d) := by rw [hdd]; omega
    have h := two_rounds (configOf 100 50 1000 d) T delta hp
    rw [hdd] at h
    exact h
  refine ⟨?_, ?_, ?_, scen, ?_⟩
  · rw [key]
    constructor
    · rintro ⟨c, hc, h⟩
      exact ⟨List.ne_nil_of_mem hc, c, hc, h⟩
    · rintro ⟨_, h⟩
      exact h
  · rw [← Bool.not_eq_true, key]
    constructor
    · intro h
      by_cases hnil : alertTypes = []
      · exact Or.inl hnil
      · right
        intro c hc
        cases hlf : e.lastFired c with
        | none => exact absurd ⟨c, hc, Or.inl hlf⟩ h
        | some t =>
          refine ⟨t, rfl, ?_⟩
          by_contra hlt
          exact h ⟨c, hc, Or.inr ⟨t, hlf, not_lt.mp hlt⟩⟩
    · rintro (hnil | hall) ⟨c, hc, h⟩
      · rw [hnil] at hc
        exact absurd hc (List.not_mem_nil c)
      · obtain ⟨t, ht, hlt⟩ := hall c hc
        rcases h with h | ⟨t2, ht2, hge⟩
        · rw [h] at ht
          exact absurd ht (by simp)
        · rw [ht2] at ht
          have htt : t2 = t := Option.some.inj ht
          rw [htt] at hge
          exact absurd hge (not_le.mpr hlt)
  · intro h1 h2
    exact debounceDur_of_range e.cfg h1 h2
  · intro T
    have h := scen 60 T (30 * second) (by norm_num) (by norm_num)
    refine ⟨h.1, ?_⟩
    rw [← Bool.not_eq_true, h.2]
    unfold second
    norm_num

/-- C4, witness: with `scripts.debounce_sec = 60` and `cpu` recorded 10 s ago, the round
`["cpu"]` is not admitted. -/
theorem C4_should_execute_iff_witness :
    0 < wrapInt64 (scenarioEngine.cfg.Scripts.DebounceSec * 1000000000) ∧
    (ShouldExecuteScripts scenarioEngine scenarioT ["cpu"]).2 = false :=
  have hpos : 0 < wrapInt64 (scenarioEngine.cfg.Scripts.DebounceSec * 1000000000) := by
    unfold wrapInt64 scenarioEngine configOf
    norm_num
  ⟨hpos, (C4_should_execute_iff scenarioEngine scenarioT ["cpu"] hpos).2.1.mpr
    (Or.inr (fun c hc => ⟨scenarioT - 10 * second, by
      rw [List.mem_singleton.mp hc]; simp [scenarioEngine], by
      unfold wrapInt64 scenarioEngine configOf second
      norm_num⟩))⟩

/-- C5, as stated, fails: with a 60 s interval, `cpu` fired 10 s ago and `memory` never, the
round `["cpu", "memory"]` returns true and records `now` for `memory`, but `cpu` keeps
its older instant. -/
theorem C5_counterexample :
    (ShouldExecuteScripts scenarioEngine scenarioT ["cpu", "memory"]).2 = true ∧
    "cpu" ∈ ["cpu", "memory"] ∧
    (ShouldExecuteScripts scenarioEngine scenarioT ["cpu", "memory"]).1.lastFired "memory"
      = some scenarioT ∧
    (ShouldExecuteScripts scenarioEngine scenarioT ["cpu", "memory"]).1.lastFired "cpu"
      = some (scenarioT - 10 * second) ∧
    (ShouldExecuteScripts scenarioEngine scenarioT ["cpu", "memory"]).1.lastFired "cpu"
      ≠ some scenarioT := by
  have hd : debounceDur scenarioEngine.cfg = 60000000000 := debounceDur_configOf_sixty _ _ _
  have e1 : maxDuration = (9223372036854775807 : Int) := by unfold maxDuration; norm_num
  have e2 : minDuration = (-9223372036854775808 : Int) := by unfold minDuration; norm_num
  have hcpu : admits scenarioT 60000000000 scenarioEngine.lastFired "cpu" = false := by
    simp [admits, scenarioEngine, timeSub, e1, e2, scenarioT, second]
  have hmem : admits scenarioT 60000000000 scenarioEngine.lastFired "memory" = true := by
    simp [admits, scenarioEngine]
  refine ⟨?_, by simp, ?_, ?_, ?_⟩
  · rw [ShouldExecuteScripts_flag, hd]
    exact ⟨"memory", by simp, hmem⟩
  · rw [ShouldExecuteScripts_map, hd, hmem]; simp
  · rw [ShouldExecuteScripts_map, hd, hcpu]; simp [scenarioEngine]
  · rw [ShouldExecuteScripts_map, hd, hcpu]; simp [scenarioEngine, scenarioT, second]

/-- C5, amended. If `ShouldExecuteScripts` returns true then afterwards every category of
the list that had no recorded instant, or whose instant was at least the debounce interval
ago (`now.Sub(last) ≥ interval`), has `last_fired = now`, and there is at least one such
category; a category of the list whose instant was still inside the window keeps that
instant, and so does every category outside the list. -/
theorem C5_admitted_categories_marked (e : Engine) (now : Int) (alertTypes : List String)
    (h : (ShouldExecuteScripts e now alertTypes).2 = true) :
    (∃ c ∈ alertTypes, (ShouldExecuteScripts e now alertTypes).1.lastFired c = some now) ∧
    (∀ c ∈ alertTypes,
      (e.lastFired c = none ∨
          ∃ t, e.lastFired c = some t ∧ timeSub now t ≥ debounceDur e.cfg) →
        (ShouldExecuteScripts e now alertTypes).1.lastFired c = some now) ∧
    (∀ c ∈ alertTypes, ∀ t, e.lastFired c = some t → timeSub now t < debounceDur e.cfg →
        (ShouldExecuteScripts e now alertTypes).1.lastFired c = some t) ∧
    (∀ c, c ∉ alertTypes →
        (ShouldExecuteScripts e now alertTypes).1.lastFired c = e.lastFired c) := by
  have hmark : ∀ c ∈ alertTypes, admits now (debounceDur e.cfg) e.lastFired c = true →
      (ShouldExecuteScripts e now alertTypes).1.lastFired c = some now := by
    intro c hc ha
    rw [ShouldExecuteScripts_map, if_pos ⟨hc, ha⟩]
  refine ⟨?_, ?_, ?_, ?_⟩
  · obtain ⟨c, hc, ha⟩ := (ShouldExecuteScripts_flag e now alertTypes).mp h
    exact ⟨c, hc, hmark c hc ha⟩
  · intro c hc ha
    exact hmark c hc ((admits_iff now _ e.lastFired c).mpr ha)
  · intro c _ t ht hlt
    have hna : ¬ admits now (debounceDur e.cfg) e.lastFired c = true := by
      rw [admits_iff]
      rintro (hn | ⟨t2, ht2, hge⟩)
      · rw [hn] at ht; exact absurd ht (by simp)
      · rw [ht2] at ht
        have htt : t2 = t := Option.some.inj ht
        rw [htt] at hge
        exact absurd hge (not_le.mpr hlt)
    rw [ShouldExecuteScripts_map, if_neg (fun hh => hna hh.2), ht]
  · intro c hc
    rw [ShouldExecuteScripts_map, if_neg (fun hh => hc hh.1)]

/-- C5 amended, witness: the round `["cpu", "memory"]` of the scenario engine. -/
theorem C5_admitted_categories_marked_witness :
    (ShouldExecuteScripts scenarioEngine scenarioT ["cpu", "memory"]).2 = true ∧
    (ShouldExecuteScripts scenarioEngine scenarioT ["cpu", "memory"]).1.lastFired "memory"
      = some scenarioT :=
  have h : (ShouldExecuteScripts scenarioEngine scenarioT ["cpu", "memory"]).2 = true := by
    rw [ShouldExecuteScripts_flag]
    exact ⟨"memory", by simp, by simp [admits, scenarioEngine]⟩
  ⟨h, (C5_admitted_categories_marked scenarioEngine scenarioT ["cpu", "memory"] h).2.1
    "memory" (by simp) (Or.inl (by simp [scenarioEngine]))⟩

end Debouncer

/-! ## Theorems: the collector -/

section CollectorCPU

open spec metrics gostd

theorem collectCPU_of_read (c : Collector) (stat : Option (List String)) (stats : cpuStats)
    (hread : readCPUStats stat = .ok stats) :
    collectCPU c stat =
      if c.initialized = false then
        ({ c with prevCPUStats := stats, initialized := true }, .ok 0)
      else if subU64 (cpuTotal stats) (cpuTotal c.prevCPUStats) = 0 then
        ({ c with prevCPUStats := stats }, .ok 0)
      else
        ({ c with prevCPUStats := stats },
          .ok ((1 - (subU64 (cpuIdle stats) (cpuIdle c.prevCPUStats) : Float64) /
            (subU64 (cpuTotal stats) (cpuTotal c.prevCPUStats) : Float64)) * 100)) := by
  unfold collectCPU
  rw [hread]
  cases c.initialized <;> simp

theorem collectCPU_of_error (c : Collector) (stat : Option (List String)) (err : String)
    (hread : readCPUStats stat = .error err) :
    collectCPU c stat = (c, .error err) := by
  unfold collectCPU
  rw [hread]

theorem subU64_of_le (a b : Nat) (hab : b ≤ a) (ha : a < u64) : subU64 a b = a - b := by
  unfold subU64
  have hb : b % u64 = b := Nat.mod_eq_of_lt (lt_of_le_of_lt hab ha)
  rw [hb]
  have h1 : a + u64 - b = (a - b) + u64 := by omega
  rw [h1, Nat.add_mod_right]
  exact Nat.mod_eq_of_lt (lt_of_le_of_lt (Nat.sub_le a b) ha)

theorem plainTotal_mono (a b : cpuStats) (h : statsLE a b) : plainTotal a ≤ plainTotal b := by
  unfold statsLE at h
  unfold plainTotal
  omega

theorem cpuTotal_eq_plain (s : cpuStats) (h : plainTotal s < u64) :
    cpuTotal s = plainTotal s := by
  unfold cpuTotal
  exact Nat.mod_eq_of_lt h

theorem cpuIdle_eq_plain (s : cpuStats) (h : plainTotal s < u64) :
    cpuIdle s = s.idle + s.iowait := by
  unfold cpuIdle
  apply Nat.mod_eq_of_lt
  unfold plainTotal at h
  omega

theorem deltas_of_monotone (prev stats : cpuStats) (hle : statsLE prev stats)
    (hlt : plainTotal stats < u64) :
    subU64 (cpuTotal stats) (cpuTotal prev) = plainTotal stats - plainTotal prev ∧
    subU64 (cpuIdle stats) (cpuIdle prev) =
      (stats.idle + stats.iowait) - (prev.idle + prev.iowait) ∧
    (stats.idle + stats.iowait) - (prev.idle + prev.iowait)
      ≤ plainTotal stats - plainTotal prev := by
  have hmono := plainTotal_mono prev stats hle
  have hp : plainTotal prev < u64 := lt_of_le_of_lt hmono hlt
  rw [cpuTotal_eq_plain stats hlt, cpuTotal_eq_plain prev hp, cpuIdle_eq_plain stats hlt,
    cpuIdle_eq_plain prev hp]
  unfold statsLE at hle
  refine ⟨subU64_of_le _ _ hmono hlt, subU64_of_le _ _ (by omega) ?_, ?_⟩
  · unfold plainTotal at hlt; omega
  · unfold plainTotal; omega

/-- A first line whose fields are `cpu` and at least seven more is read, column by column,
into the eight counters. -/
theorem readCPUStats_of_columns (line : String) (rest : List String)
    (u n s i w q sq : String) (more : List String)
    (h : Fields line = "cpu" :: u :: n :: s :: i :: w :: q :: sq :: more) :
    readCPUStats (some (line :: rest)) = .ok (statsOfColumns u n s i w q sq more) := by
  unfold readCPUStats
  simp only [h]
  cases more with
  | nil => simp [parseCPUStats, statsOfColumns, stealField]
  | cons st tl => simp [parseCPUStats, statsOfColumns, stealField]

/-- Only such a first line is read without error. -/
theorem readCPUStats_ok_shape (stat : Option (List String)) (stats : cpuStats)
    (hread : readCPUStats stat = .ok stats) :
    ∃ (line : String) (rest : List String) (u n s i w q sq : String) (more : List String),
      stat = some (line :: rest) ∧
      Fields line = "cpu" :: u :: n :: s :: i :: w :: q :: sq :: more ∧
      stats = statsOfColumns u n s i w q sq more := by
  match stat, hread with
  | none, hread => simp [readCPUStats] at hread
  | some [], hread => simp [readCPUStats] at hread
  | some (line :: rest), hread =>
    rcases hf : Fields line with
      _ | ⟨f0, _ | ⟨u, _ | ⟨n, _ | ⟨s, _ | ⟨i, _ | ⟨w, _ | ⟨q, _ | ⟨sq, more⟩⟩⟩⟩⟩⟩⟩⟩
    all_goals
      first
      | (exfalso
         unfold readCPUStats at hread
         simp only [hf] at hread
         simp at hread
         done)
      | skip
    have hcpu : f0 = "cpu" := by
      unfold readCPUStats at hread
      simp only [hf] at hread
      by_contra hne
      simp [hne] at hread
    subst hcpu
    have h2 := readCPUStats_of_columns line rest u n s i w q sq more hf
    rw [h2] at hread
    exact ⟨line, rest, u, n, s, i, w, q, sq, more, rfl, hf, (Except.ok.inj hread).symm⟩

/-- Two concrete first lines: one with all eight counters and the two guest columns, one
without the `steal` column. -/
theorem readCPUStats_examples :
    readCPUStats (some ["cpu  1600 50 700 8070 530 20 20 10 0 0", "cpu0 1 2 3 4 5 6 7 8"])
      = .ok ⟨1600, 50, 700, 8070, 530, 20, 20, 10⟩ ∧
    readCPUStats (some ["cpu 11 12 13 14 15 16 17"]) = .ok ⟨11, 12, 13, 14, 15, 16, 17, 0⟩ ∧
    readCPUStats (some ["cpu 11 12 13 14 15 16"]) = .error "invalid cpu line" ∧
    readCPUStats (some ["cpu0 1 2 3 4 5 6 7 8"]) = .error "invalid cpu line" :=
  ⟨rfl, rfl, rfl, rfl⟩

/-- C6. A `collectCPU` call succeeds exactly when the first line of `/proc/stat` has the
fields `cpu user nice system idle iowait irq softirq` and possibly more, and the counters
`stats` it reads are those seven columns and the `steal` column after them (0 when the line
ends before it).  On such a call, with `total` the sum of the eight counters and `idle` the
sum `idle + iowait`, both in `uint64`: a non-first call returns 0 when `Δtotal = 0` and
`(1 - Δidle / Δtotal) * 100` otherwise, the deltas being the `uint64` differences the code
computes (the plain differences when no counter went back and the sums fit in 64 bits); so a
non-idle delta of 90 % of the total delta gives 90.  A first call returns 0.  In every case
the stored previous counters are `stats` afterwards. -/
theorem C6_collectCPU_usage (c : Collector) (stat : Option (List String)) (stats : cpuStats)
    (hread : readCPUStats stat = .ok stats) :
    (∃ (line : String) (rest : List String) (u n s i w q sq : String) (more : List String),
      stat = some (line :: rest) ∧
      Fields line = "cpu" :: u :: n :: s :: i :: w :: q :: sq :: more ∧
      stats.user = ParseUint u ∧ stats.nice = ParseUint n ∧ stats.system = ParseUint s ∧
      stats.idle = ParseUint i ∧ stats.iowait = ParseUint w ∧ stats.irq = ParseUint q ∧
      stats.softirq = ParseUint sq ∧
      (more = [] → stats.steal = 0) ∧
      (∀ st tl, more = st :: tl → stats.steal = ParseUint st)) ∧
    (∀ (line : String) (rest : List String) (u n s i w q sq : String) (more : List String),
      Fields line = "cpu" :: u :: n :: s :: i :: w :: q :: sq :: more →
      ∃ r, readCPUStats (some (line :: rest)) = .ok r ∧
        (collectCPU c (some (line :: rest))).1.prevCPUStats = r ∧
        r.user = ParseUint u ∧ r.nice = ParseUint n ∧ r.system = ParseUint s ∧
        r.idle = ParseUint i ∧ r.iowait = ParseUint w ∧ r.irq = ParseUint q ∧
        r.softirq = ParseUint sq ∧
        (more = [] → r.steal = 0) ∧
        (∀ st tl, more = st :: tl → r.steal = ParseUint st)) ∧
    (cpuTotal stats =
        (stats.user + stats.nice + stats.system + stats.idle + stats.iowait + stats.irq +
          stats.softirq + stats.steal) % 2 ^ 64 ∧
      cpuIdle stats = (stats.idle + stats.iowait) % 2 ^ 64 ∧
      cpuTotal c.prevCPUStats =
        (c.prevCPUStats.user + c.prevCPUStats.nice + c.prevCPUStats.system +
          c.prevCPUStats.idle + c.prevCPUStats.iowait + c.prevCPUStats.irq +
          c.prevCPUStats.softirq + c.prevCPUStats.steal) % 2 ^ 64 ∧
      cpuIdle c.prevCPUStats = (c.prevCPUStats.idle + c.prevCPUStats.iowait) % 2 ^ 64) ∧
    (c.initialized = true →
      (subU64 (cpuTotal stats) (cpuTotal c.prevCPUStats) = 0 →
        (collectCPU c stat).2 = .ok 0) ∧
      (subU64 (cpuTotal stats) (cpuTotal c.prevCPUStats) ≠ 0 →
        (collectCPU c stat).2 =
          .ok ((1 - (subU64 (cpuIdle stats) (cpuIdle c.prevCPUStats) : Float64) /
            (subU64 (cpuTotal stats) (cpuTotal c.prevCPUStats) : Float64)) * 100)) ∧
      (subU64 (cpuTotal stats) (cpuTotal c.prevCPUStats) ≠ 0 →
        10 * subU64 (cpuIdle stats) (cpuIdle c.prevCPUStats)
          = subU64 (cpuTotal stats) (cpuTotal c.prevCPUStats) →
        (collectCPU c stat).2 = .ok 90)) ∧
    (statsLE c.prevCPUStats stats → plainTotal stats < u64 →
      subU64 (cpuTotal stats) (cpuTotal c.prevCPUStats)
        = plainTotal stats - plainTotal c.prevCPUStats ∧
      subU64 (cpuIdle stats) (cpuIdle c.prevCPUStats)
        = (stats.idle + stats.iowait) - (c.prevCPUStats.idle + c.prevCPUStats.iowait)) ∧
    (c.initialized = false → (collectCPU c stat).2 = .ok 0) ∧
    (collectCPU c stat).1.prevCPUStats = stats ∧
    (collectCPU c stat).1 = { c with prevCPUStats := stats, initialized := true } := by
  have h := collectCPU_of_read c stat stats hread
  have hprev : ∀ (st : Option (List String)) (r : cpuStats), readCPUStats st = .ok r →
      (collectCPU c st).1.prevCPUStats = r := by
    intro st r hr
    rw [collectCPU_of_read c st r hr]
    split_ifs <;> rfl
  refine ⟨?_, ?_, ⟨rfl, rfl, rfl, rfl⟩, ?_, ?_, ?_, hprev stat stats hread, ?_⟩
  · obtain ⟨line, rest, u, n, s, i, w, q, sq, more, hs, hf, hst⟩ :=
      readCPUStats_ok_shape stat stats hread
    refine ⟨line, rest, u, n, s, i, w, q, sq, more, hs, hf, ?_⟩
    rw [hst]
    refine ⟨rfl, rfl, rfl, rfl, rfl, rfl, rfl, ?_, ?_⟩
    · intro hm; rw [hm]; rfl
    · intro st tl hm; rw [hm]; rfl
  · intro line rest u n s i w q sq more hf
    have hr := readCPUStats_of_columns line rest u n s i w q sq more hf
    refine ⟨_, hr, hprev _ _ hr, rfl, rfl, rfl, rfl, rfl, rfl, rfl, ?_, ?_⟩
    · intro hm; rw [hm]; rfl
    · intro st tl hm; rw [hm]; rfl
  · intro hinit
    refine ⟨?_, ?_, ?_⟩
    · intro hz
      rw [h]; simp [hinit, hz]
    · intro hnz
      rw [h]; simp only [hinit, hnz, if_false]; simp
    · intro hnz h10
      rw [h]; simp only [hinit, hnz, if_false]
      simp only [Bool.true_eq_false, if_false]
      have hq : (subU64 (cpuTotal stats) (cpuTotal c.prevCPUStats) : Float64)
          = 10 * (subU64 (cpuIdle stats) (cpuIdle c.prevCPUStats) : Float64) := by
        rw [← h10]; push_cast; ring
      have hi : (subU64 (cpuIdle stats) (cpuIdle c.prevCPUStats) : Float64) ≠ 0 := by
        intro h0
        have : subU64 (cpuIdle stats) (cpuIdle c.prevCPUStats) = 0 := by exact_mod_cast h0
        rw [this] at h10
        exact hnz h10.symm
      rw [hq]
      congr 1
      field_simp
      ring
  · intro hle hlt
    have hd := deltas_of_monotone c.prevCPUStats stats hle hlt
    exact ⟨hd.1, hd.2.1⟩
  · intro hinit
    rw [h]; simp [hinit]
  · rw [h]
    cases hinit : c.initialized
    · simp
    · split_ifs <;> simp_all

/-- C6, witness: the sampled collector (counters 1000 0 500 8000 500 0 0 0) reads a line in
which all eight counters are non-zero, with total delta 1000 and idle delta 100, and returns
90. -/
theorem C6_collectCPU_usage_witness :
    readCPUStats (some ["cpu  1600 50 700 8070 530 20 20 10 0 0"])
      = .ok ⟨1600, 50, 700, 8070, 530, 20, 20, 10⟩ ∧
    (collectCPU sampledCollector (some ["cpu  1600 50 700 8070 530 20 20 10 0 0"])).2
      = .ok 90 ∧
    (collectCPU sampledCollector
      (some ["cpu  1600 50 700 8070 530 20 20 10 0 0"])).1.prevCPUStats
      = ⟨1600, 50, 700, 8070, 530, 20, 20, 10⟩ :=
  have h := C6_collectCPU_usage sampledCollector
    (some ["cpu  1600 50 700 8070 530 20 20 10 0 0"])
    ⟨1600, 50, 700, 8070, 530, 20, 20, 10⟩ rfl
  ⟨rfl, (h.2.2.2.1 rfl).2.2 (by decide) (by decide), h.2.2.2.2.2.2.1⟩

end CollectorCPU

section CollectorNetwork

open spec metrics gostd

theorem collectNetwork_of_found (c : Collector) (now : Int) (lines : List String)
    (rx tx : Nat) (hfound : findInterface c.interfaceName lines = some (rx, tx)) :
    collectNetwork c now (some lines) =
      if c.initialized = false ∨ c.prevSampleTime = 0 then
        ({ c with prevNetStats := ⟨rx, tx⟩, prevSampleTime := now }, .ok ⟨0, 0⟩)
      else
        ({ c with prevNetStats := ⟨rx, tx⟩, prevSampleTime := now },
          .ok ⟨(subU64 rx c.prevNetStats.rxBytes : Float64) / rateDivisor now c.prevSampleTime,
            (subU64 tx c.prevNetStats.txBytes : Float64) / rateDivisor now c.prevSampleTime⟩) := by
  unfold collectNetwork
  simp only [hfound]
  have hdiv : (if durationSeconds (alerts.timeSub now c.prevSampleTime) ≤ 0 then (1 : Float64)
      else durationSeconds (alerts.timeSub now c.prevSampleTime))
      = rateDivisor now c.prevSampleTime := by
    unfold rateDivisor
    split_ifs with h1 h2 h2
    · exact absurd h2 (not_lt.mpr h1)
    · rfl
    · rfl
    · exact absurd (not_le.mp h1) h2
  rw [hdiv]
  cases hi : c.initialized <;> by_cases hz : c.prevSampleTime = 0 <;> simp [hz]

theorem collectNetwork_error_fst (c : Collector) (now : Int) (netdev : Option (List String))
    (err : String) (h : (collectNetwork c now netdev).2 = .error err) :
    (collectNetwork c now netdev).1 = c := by
  unfold collectNetwork at h ⊢
  cases netdev with
  | none => rfl
  | some lines =>
    simp only at h ⊢
    cases hf : findInterface c.interfaceName lines with
    | none => rfl
    | some p =>
      obtain ⟨rx, tx⟩ := p
      rw [hf] at h
      simp only at h
      split_ifs at h

theorem collectNetwork_ok_found (c : Collector) (now : Int) (netdev : Option (List String))
    (net : networkInfo) (h : (collectNetwork c now netdev).2 = .ok net) :
    ∃ lines rx tx, netdev = some lines ∧
      findInterface c.interfaceName lines = some (rx, tx) := by
  unfold collectNetwork at h
  cases netdev with
  | none => simp at h
  | some lines =>
    simp only at h
    cases hf : findInterface c.interfaceName lines with
    | none => rw [hf] at h; simp at h
    | some p =>
      obtain ⟨rx, tx⟩ := p
      exact ⟨lines, rx, tx, rfl, hf⟩

theorem collectCPU_fst_fields (c : Collector) (stat : Option (List String)) :
    (collectCPU c stat).1.interfaceName = c.interfaceName ∧
    (collectCPU c stat).1.prevNetStats = c.prevNetStats ∧
    (collectCPU c stat).1.prevSampleTime = c.prevSampleTime := by
  unfold collectCPU
  cases readCPUStats stat with
  | error err => exact ⟨rfl, rfl, rfl⟩
  | ok stats =>
    simp only
    split_ifs <;> exact ⟨rfl, rfl, rfl⟩

theorem collectCPU_ok_read (c : Collector) (stat : Option (List String)) (cpu : Float64)
    (h : (collectCPU c stat).2 = .ok cpu) : ∃ stats, readCPUStats stat = .ok stats := by
  cases hr : readCPUStats stat with
  | error err => rw [collectCPU_of_error c stat err hr] at h; simp at h
  | ok stats => exact ⟨stats, rfl⟩

theorem collectCPU_ok_initialized (c : Collector) (stat : Option (List String)) (cpu : Float64)
    (h : (collectCPU c stat).2 = .ok cpu) : (collectCPU c stat).1.initialized = true := by
  obtain ⟨stats, hr⟩ := collectCPU_ok_read c stat cpu h
  rw [collectCPU_of_read c stat stats hr]
  split_ifs with h1 h2
  · rfl
  · simpa using h1
  · simpa using h1

/-- The shape of a successful `Collect`: the three stages succeed in turn and the snapshot
is assembled from their results. -/
theorem Collect_ok (c : Collector) (now : Int) (fs : Procfs) (c2 : Collector)
    (snap : MetricsSnapshot) (h : Collect c now fs = (c2, .ok snap)) :
    ∃ cpu info net,
      (collectCPU c fs.stat).2 = .ok cpu ∧
      collectMemory fs.meminfo = .ok info ∧
      collectNetwork (collectCPU c fs.stat).1 now fs.netdev = (c2, .ok net) ∧
      snap = { Timestamp := now, CPUUsagePercent := cpu,
               MemUsedPercent :=
                 (subU64 info.total info.available : Float64) / (info.total : Float64) * 100,
               MemUsedBytes := subU64 info.total info.available,
               MemTotalBytes := info.total, NetInterface := c.interfaceName,
               NetRxBytesPS := net.rxBytesPS, NetTxBytesPS := net.txBytesPS,
               NetRxMbps := net.rxBytesPS * 8 / 1000000,
               NetTxMbps := net.txBytesPS * 8 / 1000000 } := by
  unfold Collect at h
  rcases hcpu : collectCPU c fs.stat with ⟨c1, r1⟩
  rw [hcpu] at h
  cases r1 with
  | error err => simp at h
  | ok cpu =>
    simp only at h
    cases hmem : collectMemory fs.meminfo with
    | error err => rw [hmem] at h; simp at h
    | ok info =>
      rw [hmem] at h
      simp only at h
      rcases hnet : collectNetwork c1 now fs.netdev with ⟨c3, r3⟩
      rw [hnet] at h
      cases r3 with
      | error err => simp at h
      | ok net =>
        simp only [Prod.mk.injEq, Except.ok.injEq] at h
        obtain ⟨h1, h2⟩ := h
        subst h1
        exact ⟨cpu, info, net, rfl, rfl, rfl, h2.symm⟩

theorem timeSub_half_second :
    alerts.timeSub (scenarioT + 500000000) scenarioT = 500000000 := by
  have e1 : alerts.maxDuration = (9223372036854775807 : Int) := by
    unfold alerts.maxDuration; norm_num
  have e2 : alerts.minDuration = (-9223372036854775808 : Int) := by
    unfold alerts.minDuration; norm_num
  unfold alerts.timeSub scenarioT
  rw [e1, e2]
  norm_num

theorem rateDivisor_half_second : rateDivisor (scenarioT + 500000000) scenarioT = 1 / 2 := by
  unfold rateDivisor
  rw [timeSub_half_second]
  unfold durationSeconds
  norm_num

/-- C7, as stated, fails: half a second after the previous sample, with 100 more bytes
received, `collectNetwork` divides by 0.5 s and reports 200 bytes per second, not the
`100 / max(0.5, 1) = 100` of the claim. -/
theorem C7_counterexample :
    (collectNetwork sampledCollector (scenarioT + 500000000) (some [netdevLine])).2
      = .ok ⟨200, 600⟩ ∧
    durationSeconds (alerts.timeSub (scenarioT + 500000000) sampledCollector.prevSampleTime)
      = 1 / 2 ∧
    (200 : Float64) ≠
      (subU64 1100 sampledCollector.prevNetStats.rxBytes : Float64) /
        max (durationSeconds
          (alerts.timeSub (scenarioT + 500000000) sampledCollector.prevSampleTime)) 1 := by
  have hs : sampledCollector.prevSampleTime = scenarioT := rfl
  have hrx : subU64 1100 sampledCollector.prevNetStats.rxBytes = 100 := by decide
  have htx : subU64 2300 sampledCollector.prevNetStats.txBytes = 300 := by decide
  have hd : durationSeconds
      (alerts.timeSub (scenarioT + 500000000) sampledCollector.prevSampleTime) = 1 / 2 := by
    rw [hs, timeSub_half_second]; unfold durationSeconds; norm_num
  refine ⟨?_, hd, ?_⟩
  · rw [collectNetwork_of_found sampledCollector _ [netdevLine] 1100 2300 rfl]
    have hne : ¬ (sampledCollector.initialized = false ∨ sampledCollector.prevSampleTime = 0) := by
      simp [sampledCollector, scenarioT]
    rw [if_neg hne, hrx, htx, hs, rateDivisor_half_second]
    norm_num
  · rw [hd, hrx]
    norm_num

/-- C7, amended. On a non-first network sample that finds the interface counters `rx` and
`tx`, `collectNetwork` reports for each direction `(counter_now - counter_prev) / d`, the
difference taken in `uint64` and `d` being the elapsed seconds when they are positive and
1 s when they are not (so `d = max(Δseconds, 1 s)` whenever `Δseconds ≤ 0` or
`Δseconds ≥ 1`); the snapshot's megabit rates are those rates `* 8 / 1000000`; and afterwards
the stored counters and sample instant are the values just read. -/
theorem C7_collectNetwork_rates (c : Collector) (now : Int) (lines : List String)
    (rx tx : Nat) (hfound : findInterface c.interfaceName lines = some (rx, tx))
    (hinit : c.initialized = true) (hprev : c.prevSampleTime ≠ 0) :
    (collectNetwork c now (some lines)).2 =
      .ok ⟨(subU64 rx c.prevNetStats.rxBytes : Float64) / rateDivisor now c.prevSampleTime,
        (subU64 tx c.prevNetStats.txBytes : Float64) / rateDivisor now c.prevSampleTime⟩ ∧
    (collectNetwork c now (some lines)).1.prevNetStats = ⟨rx, tx⟩ ∧
    (collectNetwork c now (some lines)).1.prevSampleTime = now ∧
    (durationSeconds (alerts.timeSub now c.prevSampleTime) ≤ 0 →
      rateDivisor now c.prevSampleTime = 1) ∧
    (0 < durationSeconds (alerts.timeSub now c.prevSampleTime) →
      rateDivisor now c.prevSampleTime
        = durationSeconds (alerts.timeSub now c.prevSampleTime)) ∧
    ((durationSeconds (alerts.timeSub now c.prevSampleTime) ≤ 0 ∨
        1 ≤ durationSeconds (alerts.timeSub now c.prevSampleTime)) →
      rateDivisor now c.prevSampleTime
        = max (durationSeconds (alerts.timeSub now c.prevSampleTime)) 1) ∧
    (∀ (fs : Procfs) (c2 : Collector) (snap : MetricsSnapshot),
      fs.netdev = some lines → Collect c now fs = (c2, .ok snap) →
        snap.NetRxBytesPS =
          (subU64 rx c.prevNetStats.rxBytes : Float64) / rateDivisor now c.prevSampleTime ∧
        snap.NetTxBytesPS =
          (subU64 tx c.prevNetStats.txBytes : Float64) / rateDivisor now c.prevSampleTime ∧
        snap.NetRxMbps = snap.NetRxBytesPS * 8 / 1000000 ∧
        snap.NetTxMbps = snap.NetTxBytesPS * 8 / 1000000 ∧
        c2.prevNetStats = ⟨rx, tx⟩ ∧ c2.prevSampleTime = now) := by
  have hne : ¬ (c.initialized = false ∨ c.prevSampleTime = 0) := by
    simp [hinit, hprev]
  have h := collectNetwork_of_found c now lines rx tx hfound
  rw [if_neg hne] at h
  refine ⟨by rw [h], by rw [h], by rw [h], ?_, ?_, ?_, ?_⟩
  · intro hle
    unfold rateDivisor
    rw [if_neg (not_lt.mpr hle)]
  · intro hpos
    unfold rateDivisor
    rw [if_pos hpos]
  · rintro (hle | hge)
    · unfold rateDivisor
      rw [if_neg (not_lt.mpr hle), max_eq_right (le_trans hle zero_le_one)]
    · unfold rateDivisor
      rw [if_pos (lt_of_lt_of_le zero_lt_one hge), max_eq_left hge]
  · intro fs c2 snap hnet hok
    obtain ⟨cpu, info, net, hcpu, _, hn, hsnap⟩ := Collect_ok c now fs c2 snap hok
    obtain ⟨hname, hstats, htime⟩ := collectCPU_fst_fields c fs.stat
    have hinit1 := collectCPU_ok_initialized c fs.stat cpu hcpu
    have hfound1 : findInterface (collectCPU c fs.stat).1.interfaceName lines = some (rx, tx) := by
      rw [hname]; exact hfound
    have hne1 : ¬ ((collectCPU c fs.stat).1.initialized = false ∨
        (collectCPU c fs.stat).1.prevSampleTime = 0) := by
      rw [hinit1, htime]; simp [hprev]
    rw [hnet, collectNetwork_of_found _ now lines rx tx hfound1, if_neg hne1, hstats, htime] at hn
    simp only [Prod.mk.injEq, Except.ok.injEq] at hn
    obtain ⟨hc2, hnetv⟩ := hn
    subst hsnap
    subst hc2
    subst hnetv
    exact ⟨rfl, rfl, rfl, rfl, rfl, rfl⟩

/-- C7 amended, witness: the sampled collector half a second later. -/
theorem C7_collectNetwork_rates_witness :
    findInterface sampledCollector.interfaceName [netdevLine] = some (1100, 2300) ∧
    (collectNetwork sampledCollector (scenarioT + 500000000) (some [netdevLine])).1.prevNetStats
      = ⟨1100, 2300⟩ ∧
    (collectNetwork sampledCollector (scenarioT + 500000000)
      (some [netdevLine])).1.prevSampleTime = scenarioT + 500000000 :=
  have h := C7_collectNetwork_rates sampledCollector (scenarioT + 500000000) [netdevLine]
    1100 2300 rfl rfl (by decide)
  ⟨rfl, h.2.1, h.2.2.1⟩

end CollectorNetwork

section CollectorRuns

open spec metrics gostd

theorem Collect_error_fields (c : Collector) (now : Int) (fs : Procfs) (err : CollectError)
    (h : (Collect c now fs).2 = .error err) :
    (Collect c now fs).1.interfaceName = c.interfaceName ∧
    (Collect c now fs).1.prevSampleTime = c.prevSampleTime := by
  obtain ⟨hname, _, htime⟩ := collectCPU_fst_fields c fs.stat
  unfold Collect at h ⊢
  rcases hcpu : collectCPU c fs.stat with ⟨c1, r1⟩
  rw [hcpu] at h hname htime
  simp only at hname htime
  cases r1 with
  | error e1 => exact ⟨hname, htime⟩
  | ok cpu =>
    simp only at h ⊢
    cases hmem : collectMemory fs.meminfo with
    | error e2 => exact ⟨hname, htime⟩
    | ok info =>
      rw [hmem] at h
      simp only at h ⊢
      rcases hnet : collectNetwork c1 now fs.netdev with ⟨c3, r3⟩
      rw [hnet] at h
      cases r3 with
      | error e3 =>
        have h3 := collectNetwork_error_fst c1 now fs.netdev e3 (by rw [hnet])
        rw [hnet] at h3
        simp only at h3 ⊢
        rw [h3]
        exact ⟨hname, htime⟩
      | ok net => simp at h

theorem Collect_cpu_error_fst (c : Collector) (now : Int) (fs : Procfs) (cause : String)
    (h : (Collect c now fs).2 = .error (.cpu cause)) : (Collect c now fs).1 = c := by
  cases hr : readCPUStats fs.stat with
  | error e1 =>
    unfold Collect
    rw [collectCPU_of_error c fs.stat e1 hr]
  | ok stats =>
    exfalso
    unfold Collect at h
    rcases hcpu : collectCPU c fs.stat with ⟨c1, r1⟩
    have h2 : (collectCPU c fs.stat).2 = r1 := by rw [hcpu]
    rw [collectCPU_of_read c fs.stat stats hr] at h2
    rw [hcpu] at h
    cases r1 with
    | error e1 => split_ifs at h2
    | ok cpu =>
      simp only at h
      cases hmem : collectMemory fs.meminfo with
      | error e2 => rw [hmem] at h; simp at h
      | ok info =>
        rw [hmem] at h
        simp only at h
        rcases hnet : collectNetwork c1 now fs.netdev with ⟨c3, r3⟩
        rw [hnet] at h
        cases r3 with
        | error e3 => simp at h
        | ok net => simp at h

theorem failedCollects_fields (calls : List (Int × Procfs)) :
    ∀ c c2 : Collector, failedCollects c calls = some c2 →
      c2.interfaceName = c.interfaceName ∧ c2.prevSampleTime = c.prevSampleTime := by
  induction calls with
  | nil =>
    intro c c2 h
    simp only [failedCollects, Option.some.injEq] at h
    subst h
    exact ⟨rfl, rfl⟩
  | cons call rest ih =>
    intro c c2 h
    unfold failedCollects at h
    rcases hcol : Collect c call.1 call.2 with ⟨c1, r1⟩
    rw [hcol] at h
    cases r1 with
    | ok snap => simp at h
    | error err =>
      simp only at h
      obtain ⟨h1, h2⟩ := ih c1 c2 h
      have hf := Collect_error_fields c call.1 call.2 err (by rw [hcol])
      rw [hcol] at hf
      exact ⟨h1.trans hf.1, h2.trans hf.2⟩

theorem failedInCPUStage_collector (calls : List (Int × Procfs)) :
    ∀ c : Collector, failedInCPUStage c calls = true → failedCollects c calls = some c := by
  induction calls with
  | nil => intro c _; rfl
  | cons call rest ih =>
    intro c h
    unfold failedInCPUStage at h
    unfold failedCollects
    rcases hcol : Collect c call.1 call.2 with ⟨c1, r1⟩
    rw [hcol] at h
    cases r1 with
    | ok snap => simp at h
    | error err =>
      cases err with
      | cpu cause =>
        simp only at h ⊢
        have hc := Collect_cpu_error_fst c call.1 call.2 cause (by rw [hcol])
        rw [hcol] at hc
        simp only at hc
        subst hc
        exact ih c1 h
      | memory cause => simp at h
      | network cause => simp at h

theorem Collect_first_network (c : Collector) (now : Int) (fs : Procfs) (c2 : Collector)
    (snap : MetricsSnapshot) (hzero : c.prevSampleTime = 0)
    (hok : Collect c now fs = (c2, .ok snap)) :
    snap.NetRxBytesPS = 0 ∧ snap.NetTxBytesPS = 0 ∧ snap.NetRxMbps = 0 ∧ snap.NetTxMbps = 0 := by
  obtain ⟨cpu, info, net, _, _, hn, hsnap⟩ := Collect_ok c now fs c2 snap hok
  obtain ⟨_, _, htime⟩ := collectCPU_fst_fields c fs.stat
  obtain ⟨lines, rx, tx, hnet, hfound⟩ :=
    collectNetwork_ok_found (collectCPU c fs.stat).1 now fs.netdev net (by rw [hn])
  rw [hnet, collectNetwork_of_found _ now lines rx tx hfound,
    if_pos (Or.inr (htime.trans hzero))] at hn
  simp only [Prod.mk.injEq, Except.ok.injEq] at hn
  obtain ⟨_, hnetv⟩ := hn
  subst hsnap
  subst hnetv
  simp

theorem Collect_first_cpu (c : Collector) (now : Int) (fs : Procfs) (c2 : Collector)
    (snap : MetricsSnapshot) (hinit : c.initialized = false)
    (hok : Collect c now fs = (c2, .ok snap)) : snap.CPUUsagePercent = 0 := by
  obtain ⟨cpu, info, net, hcpu, _, _, hsnap⟩ := Collect_ok c now fs c2 snap hok
  obtain ⟨stats, hr⟩ := collectCPU_ok_read c fs.stat cpu hcpu
  rw [collectCPU_of_read c fs.stat stats hr, if_pos hinit] at hcpu
  simp only [Except.ok.injEq] at hcpu
  subst hsnap
  exact hcpu.symm

theorem failedCollects_memoryFailing :
    failedCollects (NewCollector "eth0") [(scenarioT, memoryFailingProcfs)] =
      some halfSampledCollector := by
  rfl

theorem Collect_halfSampled :
    ∃ c2 snap,
      Collect halfSampledCollector (scenarioT + 1000000000) goodProcfs = (c2, .ok snap) ∧
      snap.CPUUsagePercent = 100 := by
  have hcpu : collectCPU halfSampledCollector goodProcfs.stat =
      (cpuSampledCollector, .ok 100) := by
    rw [collectCPU_of_read halfSampledCollector goodProcfs.stat ⟨20, 0, 0, 0, 0, 0, 0, 0⟩ rfl]
    have ht : subU64 (cpuTotal ⟨20, 0, 0, 0, 0, 0, 0, 0⟩)
        (cpuTotal halfSampledCollector.prevCPUStats) = 10 := by decide
    have hi : subU64 (cpuIdle ⟨20, 0, 0, 0, 0, 0, 0, 0⟩)
        (cpuIdle halfSampledCollector.prevCPUStats) = 0 := by decide
    have hin : ¬ halfSampledCollector.initialized = false := by decide
    rw [if_neg hin, ht, hi]
    refine Prod.ext rfl ?_
    norm_num
  have hmem : collectMemory goodProcfs.meminfo = .ok ⟨102400, 51200⟩ := rfl
  have hzero : cpuSampledCollector.initialized = false ∨ cpuSampledCollector.prevSampleTime = 0 :=
    Or.inr rfl
  have hnet : collectNetwork cpuSampledCollector (scenarioT + 1000000000) goodProcfs.netdev =
      ({ cpuSampledCollector with
          prevNetStats := ⟨1100, 2300⟩, prevSampleTime := scenarioT + 1000000000 },
        .ok ⟨0, 0⟩) := by
    show collectNetwork _ _ (some [netdevLine]) = _
    rw [collectNetwork_of_found cpuSampledCollector (scenarioT + 1000000000) [netdevLine]
      1100 2300 rfl, if_pos hzero]
  have hcol : Collect halfSampledCollector (scenarioT + 1000000000) goodProcfs =
      ({ cpuSampledCollector with
          prevNetStats := ⟨1100, 2300⟩, prevSampleTime := scenarioT + 1000000000 },
        .ok { Timestamp := scenarioT + 1000000000, CPUUsagePercent := 100,
              MemUsedPercent := (subU64 102400 51200 : Float64) / (102400 : Nat) * 100,
              MemUsedBytes := subU64 102400 51200, MemTotalBytes := 102400,
              NetInterface := "eth0", NetRxBytesPS := 0, NetTxBytesPS := 0,
              NetRxMbps := 0 * 8 / 1000000, NetTxMbps := 0 * 8 / 1000000 }) := by
    unfold Collect
    rw [hcpu]
    simp only [hmem, hnet]
    rfl
  exact ⟨_, _, hcol, rfl⟩

/-- C8, as stated, fails: on a new collector a first call fails in the memory stage after
the cpu stage has stored its counters; the next call succeeds and its snapshot, the first
one returned without error, has `cpu_usage_percent = 100`. -/
theorem C8_counterexample :
    ∃ c c2 snap,
      failedCollects (NewCollector "eth0") [(scenarioT, memoryFailingProcfs)] = some c ∧
      Collect c (scenarioT + 1000000000) goodProcfs = (c2, .ok snap) ∧
      snap.CPUUsagePercent = 100 ∧ snap.CPUUsagePercent ≠ 0 := by
  obtain ⟨c2, snap, hcol, hcpu⟩ := Collect_halfSampled
  exact ⟨_, c2, snap, failedCollects_memoryFailing, hcol, hcpu, by rw [hcpu]; norm_num⟩

/-- C8, amended. On a new collector, whatever the kernel sources hold and however many
earlier `Collect` calls failed, the first snapshot returned without error has both byte
rates and both megabit rates equal to 0; its `cpu_usage_percent` is 0 when every earlier
call failed in the cpu stage (in particular when there was no earlier call). -/
theorem C8_first_snapshot (interfaceName : String) (calls : List (Int × Procfs))
    (c : Collector) (now : Int) (fs : Procfs) (c2 : Collector) (snap : MetricsSnapshot)
    (hfail : failedCollects (NewCollector interfaceName) calls = some c)
    (hok : Collect c now fs = (c2, .ok snap)) :
    snap.NetRxBytesPS = 0 ∧ snap.NetTxBytesPS = 0 ∧ snap.NetRxMbps = 0 ∧ snap.NetTxMbps = 0 ∧
    (failedInCPUStage (NewCollector interfaceName) calls = true →
      snap.CPUUsagePercent = 0) := by
  have hz : c.prevSampleTime = 0 :=
    (failedCollects_fields calls (NewCollector interfaceName) c hfail).2
  obtain ⟨h1, h2, h3, h4⟩ := Collect_first_network c now fs c2 snap hz hok
  refine ⟨h1, h2, h3, h4, ?_⟩
  intro hcpu
  have hc := failedInCPUStage_collector calls (NewCollector interfaceName) hcpu
  rw [hfail] at hc
  have hc2 : c = NewCollector interfaceName := Option.some.inj hc
  exact Collect_first_cpu c now fs c2 snap (by rw [hc2]; rfl) hok

/-- C8 amended, witness: a call failing in the memory stage, then a successful call. -/
theorem C8_first_snapshot_witness :
    ∃ c c2 snap,
      failedCollects (NewCollector "eth0") [(scenarioT, memoryFailingProcfs)] = some c ∧
      Collect c (scenarioT + 1000000000) goodProcfs = (c2, .ok snap) ∧
      snap.NetRxBytesPS = 0 ∧ snap.NetTxBytesPS = 0 := by
  obtain ⟨c2, snap, hok, _⟩ := Collect_halfSampled
  have h := C8_first_snapshot "eth0" [(scenarioT, memoryFailingProcfs)] halfSampledCollector
    (scenarioT + 1000000000) goodProcfs c2 snap failedCollects_memoryFailing hok
  exact ⟨halfSampledCollector, c2, snap, failedCollects_memoryFailing, hok, h.1, h.2.1⟩

end CollectorRuns

section CollectorBounds

open spec metrics gostd

/-- A `Collect` call whose three stages succeed returns the snapshot assembled from them. -/
theorem Collect_of_stages (c : Collector) (now : Int) (fs : Procfs) (c1 c2 : Collector)
    (cpu : Float64) (info : memoryInfo) (net : networkInfo)
    (hcpu : collectCPU c fs.stat = (c1, .ok cpu))
    (hmem : collectMemory fs.meminfo = .ok info)
    (hnet : collectNetwork c1 now fs.netdev = (c2, .ok net)) :
    Collect c now fs =
      (c2, .ok { Timestamp := now, CPUUsagePercent := cpu,
                 MemUsedPercent :=
                   (subU64 info.total info.available : Float64) / (info.total : Float64) * 100,
                 MemUsedBytes := subU64 info.total info.available,
                 MemTotalBytes := info.total, NetInterface := c.interfaceName,
                 NetRxBytesPS := net.rxBytesPS, NetTxBytesPS := net.txBytesPS,
                 NetRxMbps := net.rxBytesPS * 8 / 1000000,
                 NetTxMbps := net.txBytesPS * 8 / 1000000 }) := by
  unfold Collect
  rw [hcpu]
  simp only [hmem, hnet]

theorem ratio_bounds (a b : Nat) (h : a ≤ b) :
    0 ≤ (a : Float64) / (b : Float64) ∧ (a : Float64) / (b : Float64) ≤ 1 := by
  have ha : (0 : Float64) ≤ (a : Float64) := Nat.cast_nonneg a
  have hb : (0 : Float64) ≤ (b : Float64) := Nat.cast_nonneg b
  refine ⟨div_nonneg ha hb, ?_⟩
  rcases Nat.eq_zero_or_pos b with hz | hpos
  · subst hz; simp
  · have hpos2 : (0 : Float64) < (b : Float64) := by exact_mod_cast hpos
    rw [div_le_one hpos2]
    exact_mod_cast h

theorem memoryLine_lt (info : memoryInfo) (line : String)
    (h : info.total < u64 ∧ info.available < u64) :
    (memoryLine info line).total < u64 ∧ (memoryLine info line).available < u64 := by
  have hu : 0 < u64 := by unfold u64; norm_num
  unfold memoryLine
  simp only []
  split_ifs <;>
    first
    | exact h
    | exact ⟨Nat.mod_lt _ hu, h.2⟩
    | exact ⟨h.1, Nat.mod_lt _ hu⟩

theorem scanMeminfo_lt (lines : List String) :
    ∀ info : memoryInfo, info.total < u64 ∧ info.available < u64 →
      (scanMeminfo info lines).total < u64 ∧ (scanMeminfo info lines).available < u64 := by
  induction lines with
  | nil => intro info h; exact h
  | cons line rest ih =>
    intro info h
    unfold scanMeminfo
    simp only
    split_ifs
    · exact memoryLine_lt info line h
    · exact ih _ (memoryLine_lt info line h)

theorem collectMemory_ok_lt (meminfo : Option (List String)) (info : memoryInfo)
    (h : collectMemory meminfo = .ok info) :
    0 < info.total ∧ info.total < u64 ∧ 0 < info.available ∧ info.available < u64 := by
  have hu : 0 < u64 := by unfold u64; norm_num
  unfold collectMemory at h
  cases meminfo with
  | none => simp at h
  | some lines =>
    simp only at h
    have hlt := scanMeminfo_lt lines ⟨0, 0⟩ ⟨hu, hu⟩
    split_ifs at h with h1 h2
    · simp only [Except.ok.injEq] at h
      subst h
      exact ⟨Nat.pos_of_ne_zero h1, hlt.1, Nat.pos_of_ne_zero h1, hlt.1⟩
    · simp only [Except.ok.injEq] at h
      subst h
      exact ⟨Nat.pos_of_ne_zero h1, hlt.1, Nat.pos_of_ne_zero h2, hlt.2⟩

theorem Collect_backwards :
    ∃ c2 snap,
      Collect sampledCollector (scenarioT + 1000000000) backwardsProcfs = (c2, .ok snap) ∧
      snap.CPUUsagePercent = -500 ∧ snap.MemTotalBytes = 102400 ∧
      snap.MemUsedBytes = 18446744073709449216 ∧
      snap.MemUsedPercent
        = (18446744073709449216 : Float64) / (102400 : Float64) * 100 := by
  have hcpu : collectCPU sampledCollector backwardsProcfs.stat =
      ({ sampledCollector with prevCPUStats := ⟨500, 0, 500, 8600, 500, 0, 0, 0⟩ },
        .ok (-500)) := by
    rw [collectCPU_of_read sampledCollector backwardsProcfs.stat
      ⟨500, 0, 500, 8600, 500, 0, 0, 0⟩ rfl]
    have ht : subU64 (cpuTotal ⟨500, 0, 500, 8600, 500, 0, 0, 0⟩)
        (cpuTotal sampledCollector.prevCPUStats) = 100 := by decide
    have hi : subU64 (cpuIdle ⟨500, 0, 500, 8600, 500, 0, 0, 0⟩)
        (cpuIdle sampledCollector.prevCPUStats) = 600 := by decide
    have hin : ¬ sampledCollector.initialized = false := by decide
    rw [if_neg hin, ht, hi]
    refine Prod.ext rfl ?_
    norm_num
  have hmem : collectMemory backwardsProcfs.meminfo = .ok ⟨102400, 204800⟩ := rfl
  have hnet := collectNetwork_of_found
    { sampledCollector with prevCPUStats := ⟨500, 0, 500, 8600, 500, 0, 0, 0⟩ }
    (scenarioT + 1000000000) [netdevLine] 1100 2300 rfl
  have hnz : ¬ (sampledCollector.initialized = false ∨ sampledCollector.prevSampleTime = 0) := by
    simp [sampledCollector, scenarioT]
  rw [if_neg hnz] at hnet
  have hcol := Collect_of_stages sampledCollector (scenarioT + 1000000000) backwardsProcfs
    _ _ _ _ _ hcpu hmem hnet
  refine ⟨_, _, hcol, rfl, rfl, by decide, ?_⟩
  have hu : subU64 102400 204800 = 18446744073709449216 := by decide
  simp only [hu]
  norm_num

/-- C9, as stated, fails: for a collector that has already sampled, counters in which `user`
went back and a `MemAvailable` above `MemTotal` give a snapshot, returned without error, with
`cpu_usage_percent = -500 < 0`, `mem_used_bytes > mem_total_bytes` and
`mem_used_percent > 100`. -/
theorem C9_counterexample :
    ∃ c2 snap,
      Collect sampledCollector (scenarioT + 1000000000) backwardsProcfs = (c2, .ok snap) ∧
      snap.CPUUsagePercent < 0 ∧ snap.MemTotalBytes < snap.MemUsedBytes ∧
      100 < snap.MemUsedPercent := by
  obtain ⟨c2, snap, hcol, hcpu, htot, hused, hpct⟩ := Collect_backwards
  refine ⟨c2, snap, hcol, ?_, ?_, ?_⟩
  · rw [hcpu]; norm_num
  · rw [htot, hused]; norm_num
  · rw [hpct]; norm_num

/-- C9, amended. For every snapshot that `Collect` returns without error: if the parsed
`MemAvailable` (in bytes) is at most the parsed `MemTotal`, then
`0 ≤ mem_used_percent ≤ 100` and `mem_used_bytes ≤ mem_total_bytes`; if no CPU counter is
below its previously stored value and the sum of the counters fits in 64 bits, then
`0 ≤ cpu_usage_percent ≤ 100`; and on a collector that is not yet initialized
`cpu_usage_percent = 0`. -/
theorem C9_percent_bounds (c : Collector) (now : Int) (fs : Procfs) (c2 : Collector)
    (snap : MetricsSnapshot) (hok : Collect c now fs = (c2, .ok snap)) :
    (∀ info, collectMemory fs.meminfo = .ok info → info.available ≤ info.total →
      0 ≤ snap.MemUsedPercent ∧ snap.MemUsedPercent ≤ 100 ∧
        snap.MemUsedBytes ≤ snap.MemTotalBytes) ∧
    (∀ stats, readCPUStats fs.stat = .ok stats → statsLE c.prevCPUStats stats →
      plainTotal stats < u64 →
      0 ≤ snap.CPUUsagePercent ∧ snap.CPUUsagePercent ≤ 100) ∧
    (c.initialized = false → snap.CPUUsagePercent = 0) := by
  obtain ⟨cpu, info, net, hcpu, hmem, _, hsnap⟩ := Collect_ok c now fs c2 snap hok
  refine ⟨?_, ?_, ?_⟩
  · intro info2 hmem2 hle
    rw [hmem] at hmem2
    have hinfo : info = info2 := Except.ok.inj hmem2
    subst hinfo
    obtain ⟨_, hlt, _, _⟩ := collectMemory_ok_lt fs.meminfo info hmem
    have hsub : subU64 info.total info.available = info.total - info.available :=
      subU64_of_le _ _ hle hlt
    have hused : subU64 info.total info.available ≤ info.total := by
      rw [hsub]; exact Nat.sub_le _ _
    obtain ⟨h0, h1⟩ := ratio_bounds _ _ hused
    subst hsnap
    refine ⟨?_, ?_, hused⟩
    · exact mul_nonneg h0 (by norm_num)
    · calc (subU64 info.total info.available : Float64) / (info.total : Float64) * 100
          ≤ 1 * 100 := mul_le_mul_of_nonneg_right h1 (by norm_num)
        _ = 100 := by norm_num
  · intro stats hread hle hlt
    have hc := collectCPU_of_read c fs.stat stats hread
    obtain ⟨ht, hi, hdle⟩ := deltas_of_monotone c.prevCPUStats stats hle hlt
    rw [hc] at hcpu
    subst hsnap
    simp only
    split_ifs at hcpu with h1 h2
    · simp only [Except.ok.injEq] at hcpu
      rw [← hcpu]; norm_num
    · simp only [Except.ok.injEq] at hcpu
      rw [← hcpu]; norm_num
    · simp only [Except.ok.injEq] at hcpu
      rw [← hcpu, ht, hi]
      obtain ⟨h0, h1⟩ := ratio_bounds _ _ hdle
      constructor
      · exact mul_nonneg (by linarith) (by norm_num)
      · nlinarith
  · intro hinit
    exact Collect_first_cpu c now fs c2 snap hinit hok

/-- C9 amended, witness: a successful call on a collector that has stored CPU counters. -/
theorem C9_percent_bounds_witness :
    ∃ c2 snap,
      Collect halfSampledCollector (scenarioT + 1000000000) goodProcfs = (c2, .ok snap) ∧
      (0 ≤ snap.MemUsedPercent ∧ snap.MemUsedPercent ≤ 100 ∧
        snap.MemUsedBytes ≤ snap.MemTotalBytes) ∧
      (0 ≤ snap.CPUUsagePercent ∧ snap.CPUUsagePercent ≤ 100) := by
  obtain ⟨c2, snap, hok, _⟩ := Collect_halfSampled
  have h := C9_percent_bounds halfSampledCollector (scenarioT + 1000000000) goodProcfs
    c2 snap hok
  refine ⟨c2, snap, hok, h.1 ⟨102400, 51200⟩ rfl (by decide), ?_⟩
  refine h.2.1 ⟨20, 0, 0, 0, 0, 0, 0, 0⟩ rfl ?_ (by decide)
  unfold statsLE halfSampledCollector
  decide

end CollectorBounds

section CollectorMemory

open spec metrics gostd

theorem memoryLine_noMem (info : memoryInfo) (line : String) (h : noMemLine line) :
    memoryLine info line = info := by
  unfold memoryLine
  rw [h.1, h.2]
  simp

theorem memoryLine_total (info : memoryInfo) (line : String) (kB : Nat)
    (h : totalLine line kB) :
    memoryLine info line = { info with total := (kB * 1024) % u64 } := by
  obtain ⟨h1, h2, h3⟩ := h
  unfold memoryLine
  rw [h1]
  simp only [if_true, ge_iff_le, h2, h3]

theorem memoryLine_available (info : memoryInfo) (line : String) (kB : Nat)
    (h : availableLine line kB) :
    memoryLine info line = { info with available := (kB * 1024) % u64 } := by
  obtain ⟨h0, h1, h2, h3⟩ := h
  unfold memoryLine
  rw [h0, h1]
  simp only [if_true, ge_iff_le, h2, h3, Bool.false_eq_true, if_false]

theorem scanMeminfo_noMem (lines : List String) :
    ∀ info : memoryInfo, (∀ l ∈ lines, noMemLine l) → scanMeminfo info lines = info := by
  induction lines with
  | nil => intro info _; rfl
  | cons line rest ih =>
    intro info h
    unfold scanMeminfo
    simp only
    rw [memoryLine_noMem info line (h line (List.mem_cons_self _ _))]
    split_ifs
    · rfl
    · exact ih info (fun l hl => h l (List.mem_cons_of_mem _ hl))

theorem scanMeminfo_skip (pre rest : List String) :
    ∀ info : memoryInfo, (∀ l ∈ pre, noMemLine l) →
      ¬ (info.total > 0 ∧ info.available > 0) →
      scanMeminfo info (pre ++ rest) = scanMeminfo info rest := by
  induction pre with
  | nil => intro info _ _; rfl
  | cons line pre ih =>
    intro info h hn
    rw [List.cons_append]
    unfold scanMeminfo
    simp only
    rw [memoryLine_noMem info line (h line (List.mem_cons_self _ _)), if_neg hn]
    rw [ih info (fun l hl => h l (List.mem_cons_of_mem _ hl)) hn]
    cases rest with
    | nil => simp [scanMeminfo]
    | cons r rs => simp [scanMeminfo]

theorem scanMeminfo_cons (info : memoryInfo) (line : String) (rest : List String) :
    scanMeminfo info (line :: rest) =
      if (memoryLine info line).total > 0 ∧ (memoryLine info line).available > 0 then
        memoryLine info line
      else scanMeminfo (memoryLine info line) rest := by
  rw [scanMeminfo]

theorem scanMeminfo_total_of_no_line (lines : List String) :
    ∀ info : memoryInfo, (∀ l ∈ lines, HasPrefix l "MemTotal:" = false) →
      (scanMeminfo info lines).total = info.total := by
  induction lines with
  | nil => intro info _; rfl
  | cons line rest ih =>
    intro info h
    have hl : (memoryLine info line).total = info.total := by
      unfold memoryLine
      rw [h line (List.mem_cons_self _ _)]
      simp only [Bool.false_eq_true, if_false]
      split_ifs <;> rfl
    rw [scanMeminfo_cons]
    split_ifs
    · exact hl
    · rw [ih _ (fun l hl2 => h l (List.mem_cons_of_mem _ hl2)), hl]

theorem kB_bytes (kB : Nat) (h : kB < 2 ^ 54) : (kB * 1024) % u64 = kB * 1024 := by
  apply Nat.mod_eq_of_lt
  unfold u64
  omega

theorem collectCPU_read_ok (c : Collector) (stat : Option (List String)) (stats : cpuStats)
    (hread : readCPUStats stat = .ok stats) : ∃ cpu, (collectCPU c stat).2 = .ok cpu := by
  rw [collectCPU_of_read c stat stats hread]
  split_ifs
  · exact ⟨_, rfl⟩
  · exact ⟨_, rfl⟩
  · exact ⟨_, rfl⟩

theorem Collect_memory_error (c : Collector) (now : Int) (fs : Procfs) (stats : cpuStats)
    (err : String) (hread : readCPUStats fs.stat = .ok stats)
    (hmem : collectMemory fs.meminfo = .error err) :
    (Collect c now fs).2 = .error (.memory err) := by
  obtain ⟨cpu, hcpu⟩ := collectCPU_read_ok c fs.stat stats hread
  unfold Collect
  rcases hc : collectCPU c fs.stat with ⟨c1, r1⟩
  rw [hc] at hcpu
  simp only at hcpu
  subst hcpu
  simp only [hmem]

theorem Collect_memory_fields (c : Collector) (now : Int) (fs : Procfs) (c2 : Collector)
    (snap : MetricsSnapshot) (info : memoryInfo)
    (hmem : collectMemory fs.meminfo = .ok info)
    (hok : Collect c now fs = (c2, .ok snap)) :
    snap.MemTotalBytes = info.total ∧
    snap.MemUsedBytes = subU64 info.total info.available ∧
    snap.MemUsedPercent =
      (subU64 info.total info.available : Float64) / (info.total : Float64) * 100 := by
  obtain ⟨cpu, info2, net, _, hmem2, _, hsnap⟩ := Collect_ok c now fs c2 snap hok
  rw [hmem] at hmem2
  have hinfo : info = info2 := Except.ok.inj hmem2
  subst hinfo
  subst hsnap
  exact ⟨rfl, rfl, rfl⟩

theorem scanMeminfo_total_then_available (pre mid post : List String) (tl al : String)
    (t a : Nat) (hpre : ∀ l ∈ pre, noMemLine l) (hmid : ∀ l ∈ mid, noMemLine l)
    (htl : totalLine tl t) (hal : availableLine al a) (ht : 0 < t) (ha : 0 < a)
    (hlt : t < 2 ^ 54) (halt : a < 2 ^ 54) :
    scanMeminfo ⟨0, 0⟩ (pre ++ tl :: (mid ++ al :: post)) = ⟨t * 1024, a * 1024⟩ := by
  rw [scanMeminfo_skip pre _ ⟨0, 0⟩ hpre (by simp), scanMeminfo_cons,
    memoryLine_total _ tl t htl, kB_bytes t hlt]
  rw [if_neg (by simp)]
  rw [scanMeminfo_skip mid _ _ hmid (by simp), scanMeminfo_cons,
    memoryLine_available _ al a hal, kB_bytes a halt]
  rw [if_pos ⟨by simp only [gt_iff_lt]; omega, by simp only [gt_iff_lt]; omega⟩]

theorem scanMeminfo_available_then_total (pre mid post : List String) (tl al : String)
    (t a : Nat) (hpre : ∀ l ∈ pre, noMemLine l) (hmid : ∀ l ∈ mid, noMemLine l)
    (htl : totalLine tl t) (hal : availableLine al a) (ht : 0 < t) (ha : 0 < a)
    (hlt : t < 2 ^ 54) (halt : a < 2 ^ 54) :
    scanMeminfo ⟨0, 0⟩ (pre ++ al :: (mid ++ tl :: post)) = ⟨t * 1024, a * 1024⟩ := by
  rw [scanMeminfo_skip pre _ ⟨0, 0⟩ hpre (by simp), scanMeminfo_cons,
    memoryLine_available _ al a hal, kB_bytes a halt]
  rw [if_neg (by simp)]
  rw [scanMeminfo_skip mid _ _ hmid (by simp), scanMeminfo_cons,
    memoryLine_total _ tl t htl, kB_bytes t hlt]
  rw [if_pos ⟨by simp only [gt_iff_lt]; omega, by simp only [gt_iff_lt]; omega⟩]

theorem scanMeminfo_total_only (pre rest : List String) (tl : String) (t : Nat)
    (hpre : ∀ l ∈ pre, noMemLine l) (hrest : ∀ l ∈ rest, noMemLine l)
    (htl : totalLine tl t) (hlt : t < 2 ^ 54) :
    scanMeminfo ⟨0, 0⟩ (pre ++ tl :: rest) = ⟨t * 1024, 0⟩ := by
  rw [scanMeminfo_skip pre _ ⟨0, 0⟩ hpre (by simp), scanMeminfo_cons,
    memoryLine_total _ tl t htl, kB_bytes t hlt]
  rw [if_neg (by simp), scanMeminfo_noMem rest _ hrest]

theorem scanMeminfo_zero_available (pre mid post : List String) (tl al : String)
    (t : Nat) (hpre : ∀ l ∈ pre, noMemLine l) (hmid : ∀ l ∈ mid, noMemLine l)
    (hpost : ∀ l ∈ post, noMemLine l)
    (htl : totalLine tl t) (hal : availableLine al 0) (hlt : t < 2 ^ 54) :
    scanMeminfo ⟨0, 0⟩ (pre ++ tl :: (mid ++ al :: post)) = ⟨t * 1024, 0⟩ := by
  rw [scanMeminfo_skip pre _ ⟨0, 0⟩ hpre (by simp), scanMeminfo_cons,
    memoryLine_total _ tl t htl, kB_bytes t hlt]
  rw [if_neg (by simp)]
  rw [scanMeminfo_skip mid _ _ hmid (by simp), scanMeminfo_cons,
    memoryLine_available _ al 0 hal]
  rw [if_neg (by simp), scanMeminfo_noMem post _ hpost]
  simp

theorem collectMemory_of_scan (lines : List String) (total available : Nat)
    (h : scanMeminfo ⟨0, 0⟩ lines = ⟨total, available⟩) (ht : 0 < total) :
    collectMemory (some lines) =
      .ok ⟨total, if available = 0 then total else available⟩ := by
  unfold collectMemory
  simp only [h]
  rw [if_neg (Nat.pos_iff_ne_zero.mp ht)]
  split_ifs <;> rfl

theorem subU64_self (a : Nat) (h : a < u64) : subU64 a a = 0 := by
  rw [subU64_of_le a a (le_refl a) h, Nat.sub_self]

theorem subU64_kB (t a : Nat) (hle : a ≤ t) (hlt : t < 2 ^ 54) :
    subU64 (t * 1024) (a * 1024) = (t - a) * 1024 := by
  rw [subU64_of_le _ _ (Nat.mul_le_mul_right 1024 hle) (by unfold u64; omega)]
  omega

theorem Collect_zeroAvailable :
    ∃ c2 snap,
      Collect (NewCollector "eth0") scenarioT zeroAvailableProcfs = (c2, .ok snap) ∧
      snap.MemTotalBytes = 102400 ∧ snap.MemUsedBytes = 0 := by
  have hcpu : collectCPU (NewCollector "eth0") zeroAvailableProcfs.stat =
      ({ NewCollector "eth0" with
          prevCPUStats := ⟨20, 0, 0, 0, 0, 0, 0, 0⟩, initialized := true }, .ok 0) := by
    rw [collectCPU_of_read (NewCollector "eth0") zeroAvailableProcfs.stat
      ⟨20, 0, 0, 0, 0, 0, 0, 0⟩ rfl]
    have hin : (NewCollector "eth0").initialized = false := rfl
    rw [if_pos hin]
  have hmem : collectMemory zeroAvailableProcfs.meminfo = .ok ⟨102400, 102400⟩ := rfl
  have hnet := collectNetwork_of_found
    { NewCollector "eth0" with
        prevCPUStats := ⟨20, 0, 0, 0, 0, 0, 0, 0⟩, initialized := true }
    scenarioT [netdevLine] 1100 2300 rfl
  have hz : ({ NewCollector "eth0" with
        prevCPUStats := ⟨20, 0, 0, 0, 0, 0, 0, 0⟩, initialized := true } : Collector).initialized
      = false ∨ ({ NewCollector "eth0" with
        prevCPUStats := ⟨20, 0, 0, 0, 0, 0, 0, 0⟩, initialized := true } : Collector).prevSampleTime
      = 0 := Or.inr rfl
  rw [if_pos hz] at hnet
  have hcol := Collect_of_stages (NewCollector "eth0") scenarioT zeroAvailableProcfs
    _ _ _ _ _ hcpu hmem hnet
  exact ⟨_, _, hcol, rfl, by decide⟩

/-- C10, as stated, fails: with the lines `MemTotal: 100 kB` and `MemAvailable: 0 kB` the
`MemAvailable` line is present, so the claim gives `mem_used_bytes = (100 - 0) * 1024`, but
the snapshot has `mem_used_bytes = 0`. -/
theorem C10_counterexample :
    ∃ c2 snap,
      Collect (NewCollector "eth0") scenarioT zeroAvailableProcfs = (c2, .ok snap) ∧
      zeroAvailableProcfs.meminfo
        = some ["MemTotal:       100 kB", "MemAvailable:   0 kB"] ∧
      totalLine "MemTotal:       100 kB" 100 ∧ availableLine "MemAvailable:   0 kB" 0 ∧
      snap.MemUsedBytes = 0 ∧ snap.MemUsedBytes ≠ (100 - 0) * 1024 := by
  obtain ⟨c2, snap, hcol, _, hused⟩ := Collect_zeroAvailable
  refine ⟨c2, snap, hcol, rfl, ⟨rfl, by decide, rfl⟩, ⟨rfl, rfl, by decide, rfl⟩, hused, ?_⟩
  rw [hused]; decide

/-- C10, amended. For every meminfo content `lines`:
* if the scan leaves `total = 0`, as it does when no line starts with `MemTotal:`, then
  `collectMemory` fails and `Collect`, once its cpu stage has succeeded, fails with a memory
  error;
* if the content has a `MemTotal` line of `t` kB and a `MemAvailable` line of `a` kB, in
  either order, no other such line before the second of them, and `0 < a ≤ t < 2 ^ 54`, then
  `mem_total_bytes = t * 1024` and `mem_used_bytes = (t - a) * 1024`;
* if it has a `MemTotal` line of `t` kB, `0 < t < 2 ^ 54`, and no `MemAvailable` line, or a
  `MemAvailable` line that reads 0 kB, then `MemAvailable` is taken equal to `MemTotal`:
  `mem_total_bytes = t * 1024`, `mem_used_bytes = 0` and `mem_used_percent = 0`. -/
theorem C10_memory_derivation (c : Collector) (now : Int) (fs : Procfs)
    (lines : List String) (hmem : fs.meminfo = some lines) :
    ((scanMeminfo ⟨0, 0⟩ lines).total = 0 →
      collectMemory fs.meminfo = .error "could not read MemTotal" ∧
      ∀ stats, readCPUStats fs.stat = .ok stats →
        (Collect c now fs).2 = .error (.memory "could not read MemTotal")) ∧
    ((∀ l ∈ lines, HasPrefix l "MemTotal:" = false) →
      (scanMeminfo ⟨0, 0⟩ lines).total = 0) ∧
    (∀ (pre mid post : List String) (tl al : String) (t a : Nat),
      (lines = pre ++ tl :: (mid ++ al :: post) ∨ lines = pre ++ al :: (mid ++ tl :: post)) →
      (∀ l ∈ pre, noMemLine l) → (∀ l ∈ mid, noMemLine l) →
      totalLine tl t → availableLine al a → 0 < a → a ≤ t → t < 2 ^ 54 →
        collectMemory fs.meminfo = .ok ⟨t * 1024, a * 1024⟩ ∧
        ∀ c2 snap, Collect c now fs = (c2, .ok snap) →
          snap.MemTotalBytes = t * 1024 ∧ snap.MemUsedBytes = (t - a) * 1024) ∧
    (∀ (pre rest : List String) (tl : String) (t : Nat),
      lines = pre ++ tl :: rest →
      (∀ l ∈ pre, noMemLine l) → (∀ l ∈ rest, noMemLine l) →
      totalLine tl t → 0 < t → t < 2 ^ 54 →
        collectMemory fs.meminfo = .ok ⟨t * 1024, t * 1024⟩ ∧
        ∀ c2 snap, Collect c now fs = (c2, .ok snap) →
          snap.MemTotalBytes = t * 1024 ∧ snap.MemUsedBytes = 0 ∧
            snap.MemUsedPercent = 0) ∧
    (∀ (pre mid post : List String) (tl al : String) (t : Nat),
      lines = pre ++ tl :: (mid ++ al :: post) →
      (∀ l ∈ pre, noMemLine l) → (∀ l ∈ mid, noMemLine l) → (∀ l ∈ post, noMemLine l) →
      totalLine tl t → availableLine al 0 → 0 < t → t < 2 ^ 54 →
        collectMemory fs.meminfo = .ok ⟨t * 1024, t * 1024⟩ ∧
        ∀ c2 snap, Collect c now fs = (c2, .ok snap) →
          snap.MemTotalBytes = t * 1024 ∧ snap.MemUsedBytes = 0 ∧
            snap.MemUsedPercent = 0) := by
  have hsame : ∀ t : Nat, 0 < t → t < 2 ^ 54 →
      collectMemory fs.meminfo = .ok ⟨t * 1024, t * 1024⟩ →
      ∀ c2 snap, Collect c now fs = (c2, .ok snap) →
        snap.MemTotalBytes = t * 1024 ∧ snap.MemUsedBytes = 0 ∧ snap.MemUsedPercent = 0 := by
    intro t _ hlt hm c2 snap hok
    obtain ⟨h1, h2, h3⟩ := Collect_memory_fields c now fs c2 snap _ hm hok
    have hz : subU64 (t * 1024) (t * 1024) = 0 := subU64_self _ (by unfold u64; omega)
    simp only [hz] at h2 h3
    refine ⟨h1, h2, ?_⟩
    rw [h3]; simp
  refine ⟨?_, ?_, ?_, ?_, ?_⟩
  · intro hz
    have hm : collectMemory fs.meminfo = .error "could not read MemTotal" := by
      rw [hmem]
      unfold collectMemory
      simp only [hz, if_true]
    exact ⟨hm, fun stats hread => Collect_memory_error c now fs stats _ hread hm⟩
  · intro hno
    exact scanMeminfo_total_of_no_line lines ⟨0, 0⟩ hno
  · intro pre mid post tl al t a hshape hpre hmid htl hal ha hle hlt
    have ht : 0 < t := lt_of_lt_of_le ha hle
    have halt : a < 2 ^ 54 := lt_of_le_of_lt hle hlt
    have hscan : scanMeminfo ⟨0, 0⟩ lines = ⟨t * 1024, a * 1024⟩ := by
      rcases hshape with h | h
      · rw [h]
        exact scanMeminfo_total_then_available pre mid post tl al t a hpre hmid htl hal ht ha
          hlt halt
      · rw [h]
        exact scanMeminfo_available_then_total pre mid post tl al t a hpre hmid htl hal ht ha
          hlt halt
    have hm : collectMemory fs.meminfo = .ok ⟨t * 1024, a * 1024⟩ := by
      rw [hmem, collectMemory_of_scan lines _ _ hscan (by omega)]
      rw [if_neg (by omega)]
    refine ⟨hm, ?_⟩
    intro c2 snap hok
    obtain ⟨h1, h2, _⟩ := Collect_memory_fields c now fs c2 snap _ hm hok
    exact ⟨h1, by rw [h2]; exact subU64_kB t a hle hlt⟩
  · intro pre rest tl t hshape hpre hrest htl ht hlt
    have hscan : scanMeminfo ⟨0, 0⟩ lines = ⟨t * 1024, 0⟩ := by
      rw [hshape]
      exact scanMeminfo_total_only pre rest tl t hpre hrest htl hlt
    have hm : collectMemory fs.meminfo = .ok ⟨t * 1024, t * 1024⟩ := by
      rw [hmem, collectMemory_of_scan lines _ _ hscan (by omega)]
      rw [if_pos rfl]
    exact ⟨hm, hsame t ht hlt hm⟩
  · intro pre mid post tl al t hshape hpre hmid hpost htl hal ht hlt
    have hscan : scanMeminfo ⟨0, 0⟩ lines = ⟨t * 1024, 0⟩ := by
      rw [hshape]
      exact scanMeminfo_zero_available pre mid post tl al t hpre hmid hpost htl hal hlt
    have hm : collectMemory fs.meminfo = .ok ⟨t * 1024, t * 1024⟩ := by
      rw [hmem, collectMemory_of_scan lines _ _ hscan (by omega)]
      rw [if_pos rfl]
    exact ⟨hm, hsame t ht hlt hm⟩

/-- C10 amended, witness: `MemTotal: 100 kB`, then `MemFree`, then `MemAvailable: 50 kB`. -/
theorem C10_memory_derivation_witness :
    goodProcfs.meminfo = some (([] : List String) ++ "MemTotal:       100 kB" ::
      (["MemFree:        10 kB"] ++ "MemAvailable:   50 kB" :: [])) ∧
    collectMemory goodProcfs.meminfo = .ok ⟨100 * 1024, 50 * 1024⟩ :=
  ⟨rfl, ((C10_memory_derivation halfSampledCollector (scenarioT + 1000000000) goodProcfs
    _ rfl).2.2.1 [] ["MemFree:        10 kB"] [] "MemTotal:       100 kB"
    "MemAvailable:   50 kB" 100 50 (Or.inl rfl) (by simp)
    (by
      intro l hl
      rw [List.mem_singleton.mp hl]
      exact ⟨rfl, rfl⟩)
    ⟨rfl, by decide, rfl⟩ ⟨rfl, rfl, by decide, rfl⟩ (by decide) (by decide) (by decide)).1⟩

end CollectorMemory

/-! ## Theorems: the retention rotator -/

section Rotation

open spec storage

theorem digitChar_spec : ∀ k : Nat, k < 10 →
    isDigit (digitChar k) = true ∧ digitVal (digitChar k) = k := by
  decide

theorem digitChar_digitVal (c : Char) (h : isDigit c = true) : digitChar (digitVal c) = c := by
  unfold isDigit at h
  simp only [Bool.and_eq_true, decide_eq_true_eq] at h
  unfold digitChar digitVal
  have : 48 + (c.toNat - 48) = c.toNat := by omega
  rw [this, Char.ofNat_toNat]

theorem digitVal_lt (c : Char) (h : isDigit c = true) : digitVal c < 10 := by
  unfold isDigit at h
  simp only [Bool.and_eq_true, decide_eq_true_eq] at h
  unfold digitVal
  omega

theorem dash_toNat : (Char.ofNat 45).toNat = 45 := by decide

theorem char_eq_dash (c : Char) (h : c.toNat = 45) : c = Char.ofNat 45 := by
  rw [← h, Char.ofNat_toNat]

theorem daysIn_le (m y : Nat) : daysIn m y ≤ 31 := by
  unfold daysIn
  split_ifs <;> omega

theorem datePattern_dateChars (y m d : Nat) (hy : y ≤ 9999) (hm : m ≤ 99) (hd : d ≤ 99) :
    datePattern (dateChars y m d) = true := by
  have h1 := digitChar_spec (y / 1000) (by omega)
  have h2 := digitChar_spec (y / 100 % 10) (by omega)
  have h3 := digitChar_spec (y / 10 % 10) (by omega)
  have h4 := digitChar_spec (y % 10) (by omega)
  have h5 := digitChar_spec (m / 10) (by omega)
  have h6 := digitChar_spec (m % 10) (by omega)
  have h7 := digitChar_spec (d / 10) (by omega)
  have h8 := digitChar_spec (d % 10) (by omega)
  unfold dateChars datePattern
  simp only [h1.1, h2.1, h3.1, h4.1, h5.1, h6.1, h7.1, h8.1, dash_toNat, decide_True,
    Bool.and_self]

theorem parseDate_dateChars (y m d : Nat) (h : validDate y m d) :
    parseDate (String.mk (dateChars y m d)) = some (dayNumber y m d * nsPerDay) := by
  obtain ⟨hy, hm1, hm2, hd1, hd2⟩ := h
  have hd3 : d ≤ 31 := le_trans hd2 (daysIn_le m y)
  have h1 := digitChar_spec (y / 1000) (by omega)
  have h2 := digitChar_spec (y / 100 % 10) (by omega)
  have h3 := digitChar_spec (y / 10 % 10) (by omega)
  have h4 := digitChar_spec (y % 10) (by omega)
  have h5 := digitChar_spec (m / 10) (by omega)
  have h6 := digitChar_spec (m % 10) (by omega)
  have h7 := digitChar_spec (d / 10) (by omega)
  have h8 := digitChar_spec (d % 10) (by omega)
  have ey : y / 1000 * 1000 + y / 100 % 10 * 100 + y / 10 % 10 * 10 + y % 10 = y := by omega
  have em : m / 10 * 10 + m % 10 = m := by omega
  have ed : d / 10 * 10 + d % 10 = d := by omega
  unfold parseDate dateChars
  simp only [String.toList, h1.1, h2.1, h3.1, h4.1, h5.1, h6.1, h7.1, h8.1, h1.2, h2.2, h3.2,
    h4.2, h5.2, h6.2, h7.2, h8.2, dash_toNat, decide_True, Bool.and_self, if_true, ey, em, ed]
  rw [if_neg (by omega), if_neg (by omega)]

theorem matchFilename_logFileName (y m d : Nat) (hy : y ≤ 9999) (hm : m ≤ 99) (hd : d ≤ 99) :
    matchFilename (logFileName y m d) = some (String.mk (dateChars y m d)) := by
  have hp := datePattern_dateChars y m d hy hm hd
  have hlen : (dateChars y m d).length = 10 := rfl
  unfold matchFilename logFileName
  have hcs : (String.mk ("metrics-".toList ++ dateChars y m d ++ ".ndjson".toList)).toList
      = "metrics-".toList ++ dateChars y m d ++ ".ndjson".toList := rfl
  have hmid : (("metrics-".toList ++ dateChars y m d ++ ".ndjson".toList).drop 8).take 10
      = dateChars y m d := rfl
  simp only [hcs, hmid, hp]
  rw [if_pos]
  refine ⟨rfl, rfl, rfl, trivial⟩

theorem datePattern_shape (l : List Char) (h : datePattern l = true) :
    ∃ y1 y2 y3 y4 a m1 m2 b d1 d2, l = [y1, y2, y3, y4, a, m1, m2, b, d1, d2] ∧
      isDigit y1 = true ∧ isDigit y2 = true ∧ isDigit y3 = true ∧ isDigit y4 = true ∧
      a.toNat = 45 ∧ isDigit m1 = true ∧ isDigit m2 = true ∧ b.toNat = 45 ∧
      isDigit d1 = true ∧ isDigit d2 = true := by
  unfold datePattern at h
  split at h
  · rename_i y1 y2 y3 y4 a m1 m2 b d1 d2
    simp only [Bool.and_eq_true, decide_eq_true_eq] at h
    obtain ⟨⟨⟨⟨⟨⟨⟨⟨⟨h1, h2⟩, h3⟩, h4⟩, h5⟩, h6⟩, h7⟩, h8⟩, h9⟩, h10⟩ := h
    exact ⟨y1, y2, y3, y4, a, m1, m2, b, d1, d2, rfl, h1, h2, h3, h4, h5, h6, h7, h8, h9, h10⟩
  · exact absurd h (by simp)

theorem name_of_match (cs : List Char) (hlen : cs.length = 25)
    (hpre : "metrics-".toList.isPrefixOf cs = true)
    (hsuf : ".ndjson".toList.isSuffixOf cs = true) :
    cs = "metrics-".toList ++ (cs.drop 8).take 10 ++ ".ndjson".toList := by
  rw [List.isPrefixOf_iff_prefix] at hpre
  rw [List.isSuffixOf_iff_suffix] at hsuf
  obtain ⟨t, ht⟩ := hpre
  obtain ⟨u, hu⟩ := hsuf
  have hplen : "metrics-".toList.length = 8 := rfl
  have hslen : ".ndjson".toList.length = 7 := rfl
  have htlen : t.length = 17 := by
    have := congrArg List.length ht
    rw [List.length_append, hplen, hlen] at this
    omega
  have hulen : u.length = 18 := by
    have := congrArg List.length hu
    rw [List.length_append, hslen, hlen] at this
    omega
  have hdrop8 : cs.drop 8 = t := by
    rw [← ht]
    exact List.drop_left' hplen
  have hdrop18 : cs.drop 18 = ".ndjson".toList := by
    rw [← hu]
    exact List.drop_left' hulen
  have htdrop : t.drop 10 = ".ndjson".toList := by
    rw [← hdrop8, List.drop_drop]
    exact hdrop18
  rw [hdrop8, List.append_assoc]
  have hsplit : t.take 10 ++ ".ndjson".toList = t := by
    rw [← htdrop]
    exact List.take_append_drop 10 t
  rw [hsplit]
  exact ht.symm

theorem parseDate_shape (y1 y2 y3 y4 a m1 m2 b d1 d2 : Char) (t : Int)
    (h1 : isDigit y1 = true) (h2 : isDigit y2 = true) (h3 : isDigit y3 = true)
    (h4 : isDigit y4 = true) (ha : a.toNat = 45) (h5 : isDigit m1 = true)
    (h6 : isDigit m2 = true) (hb : b.toNat = 45) (h7 : isDigit d1 = true)
    (h8 : isDigit d2 = true)
    (hp : parseDate (String.mk [y1, y2, y3, y4, a, m1, m2, b, d1, d2]) = some t) :
    ∃ y m d, validDate y m d ∧ dateChars y m d = [y1, y2, y3, y4, a, m1, m2, b, d1, d2] ∧
      t = dayNumber y m d * nsPerDay := by
  have b1 := digitVal_lt y1 h1
  have b2 := digitVal_lt y2 h2
  have b3 := digitVal_lt y3 h3
  have b4 := digitVal_lt y4 h4
  have b5 := digitVal_lt m1 h5
  have b6 := digitVal_lt m2 h6
  have b7 := digitVal_lt d1 h7
  have b8 := digitVal_lt d2 h8
  unfold parseDate at hp
  simp only [String.toList, h1, h2, h3, h4, h5, h6, h7, h8, ha, hb, decide_True,
    Bool.and_self, if_true] at hp
  split_ifs at hp with hmonth hday
  simp only [Option.some.injEq] at hp
  refine ⟨digitVal y1 * 1000 + digitVal y2 * 100 + digitVal y3 * 10 + digitVal y4,
    digitVal m1 * 10 + digitVal m2, digitVal d1 * 10 + digitVal d2, ?_, ?_, hp.symm⟩
  · unfold validDate
    refine ⟨by omega, by omega, by omega, by omega, by omega⟩
  · unfold dateChars
    have e1 : (digitVal y1 * 1000 + digitVal y2 * 100 + digitVal y3 * 10 + digitVal y4) / 1000
        = digitVal y1 := by omega
    have e2 : (digitVal y1 * 1000 + digitVal y2 * 100 + digitVal y3 * 10 + digitVal y4) / 100
        % 10 = digitVal y2 := by omega
    have e3 : (digitVal y1 * 1000 + digitVal y2 * 100 + digitVal y3 * 10 + digitVal y4) / 10
        % 10 = digitVal y3 := by omega
    have e4 : (digitVal y1 * 1000 + digitVal y2 * 100 + digitVal y3 * 10 + digitVal y4) % 10
        = digitVal y4 := by omega
    have e5 : (digitVal m1 * 10 + digitVal m2) / 10 = digitVal m1 := by omega
    have e6 : (digitVal m1 * 10 + digitVal m2) % 10 = digitVal m2 := by omega
    have e7 : (digitVal d1 * 10 + digitVal d2) / 10 = digitVal d1 := by omega
    have e8 : (digitVal d1 * 10 + digitVal d2) % 10 = digitVal d2 := by omega
    rw [e1, e2, e3, e4, e5, e6, e7, e8, digitChar_digitVal y1 h1, digitChar_digitVal y2 h2,
      digitChar_digitVal y3 h3, digitChar_digitVal y4 h4, digitChar_digitVal m1 h5,
      digitChar_digitVal m2 h6, digitChar_digitVal d1 h7, digitChar_digitVal d2 h8]
    have ea := char_eq_dash a ha
    have eb := char_eq_dash b hb
    rw [ea, eb]

/-- A name that `filenamePattern` matches and whose captured group `time.Parse` accepts is
the log file name of a valid date, and the parsed instant is the midnight UTC of that date. -/
theorem matched_is_logFileName (name s : String) (t : Int)
    (hm : matchFilename name = some s) (hp : parseDate s = some t) :
    ∃ y m d, validDate y m d ∧ name = logFileName y m d ∧ t = dayNumber y m d * nsPerDay := by
  unfold matchFilename at hm
  simp only at hm
  split_ifs at hm with hc
  obtain ⟨hlen, hpre, hsuf, hdp⟩ := hc
  simp only [Option.some.injEq] at hm
  obtain ⟨y1, y2, y3, y4, a, m1, m2, b, d1, d2, hmid, h1, h2, h3, h4, ha, h5, h6, hb, h7, h8⟩ :=
    datePattern_shape _ hdp
  have hname := name_of_match name.toList hlen hpre hsuf
  rw [hmid] at hm hname
  rw [← hm] at hp
  obtain ⟨y, m, d, hv, hchars, ht⟩ :=
    parseDate_shape y1 y2 y3 y4 a m1 m2 b d1 d2 t h1 h2 h3 h4 ha h5 h6 hb h7 h8 hp
  refine ⟨y, m, d, hv, ?_, ht⟩
  unfold logFileName
  rw [hchars, ← hname]
  cases name
  rfl

/-- The log file name of a valid date is matched, and its date is parsed to the midnight UTC
of that date. -/
theorem logFileName_matched (y m d : Nat) (h : validDate y m d) :
    ∃ s, matchFilename (logFileName y m d) = some s ∧
      parseDate s = some (dayNumber y m d * nsPerDay) := by
  have hd3 : d ≤ 31 := le_trans h.2.2.2.2 (daysIn_le m y)
  refine ⟨_, matchFilename_logFileName y m d h.1 (by have := h.2.2.1; omega) (by omega), ?_⟩
  exact parseDate_dateChars y m d h

theorem mem_rotateLoop (cutoff : Int) (entries : List DirEntry) (name : String) :
    name ∈ rotateLoop cutoff entries ↔
      ∃ e ∈ entries, e.Name = name ∧ e.IsDir = false ∧
        ∃ s t, matchFilename e.Name = some s ∧ parseDate s = some t ∧ t < cutoff := by
  induction entries with
  | nil => simp [rotateLoop]
  | cons entry rest ih =>
    rw [rotateLoop]
    simp only [List.mem_cons, exists_eq_or_imp]
    cases hdir : entry.IsDir with
    | true => simp [ih]
    | false =>
      simp only [Bool.false_eq_true, if_false]
      cases hmatch : matchFilename entry.Name with
      | none => simp [ih]
      | some s =>
        simp only
        cases hparse : parseDate s with
        | none => simp [ih, hparse]
        | some t =>
          simp only
          split_ifs with hlt
          · simp only [List.mem_cons, ih, hparse, Option.some.injEq, exists_eq_left', hlt,
              and_true, true_and]
            constructor
            · rintro (h | h)
              · exact Or.inl ⟨h.symm, s, t, rfl, hparse, hlt⟩
              · exact Or.inr h
            · rintro (h | h)
              · exact Or.inl h.1.symm
              · exact Or.inr h
          · simp [ih, hparse, hlt]

theorem before_cutoff_iff (dn now retentionDays : Int) :
    dn * nsPerDay < cutoffOf now retentionDays ↔
      (dn < todayUTC now - retentionDays ∨
        (dn = todayUTC now - retentionDays ∧ 0 < now % nsPerDay)) := by
  have hns : nsPerDay = 86400000000000 := by unfold nsPerDay; norm_num
  unfold cutoffOf todayUTC
  rw [hns]
  constructor
  · intro h
    omega
  · intro h
    omega

theorem mem_rotate (r : Rotator) (now : Int) (entries : List DirEntry) (name : String) :
    name ∈ rotate r now (.ok entries) ↔
      ∃ e ∈ entries, e.Name = name ∧ e.IsDir = false ∧
        ∃ y m d, validDate y m d ∧ name = logFileName y m d ∧
          dayNumber y m d * nsPerDay < cutoffOf now r.retentionDays := by
  unfold rotate
  simp only
  rw [mem_rotateLoop]
  constructor
  · rintro ⟨e, he, hname, hdir, s, t, hm, hp, hlt⟩
    obtain ⟨y, m, d, hv, hn, ht⟩ := matched_is_logFileName e.Name s t hm hp
    refine ⟨e, he, hname, hdir, y, m, d, hv, ?_, ?_⟩
    · rw [← hname]; exact hn
    · rw [← ht]; exact hlt
  · rintro ⟨e, he, hname, hdir, y, m, d, hv, hn, hlt⟩
    obtain ⟨s, hm, hp⟩ := logFileName_matched y m d hv
    refine ⟨e, he, hname, hdir, s, _, ?_, hp, hlt⟩
    rw [hname, hn]
    exact hm

theorem rotate_scenarioNoon :
    rotate (NewRotator "/var/log/system-sentinel" 7) scenarioNoon (.ok scenarioLogDir) =
      ["metrics-2026-10-28.ndjson", "metrics-2026-10-27.ndjson",
       "metrics-2026-10-05.ndjson"] := by
  decide

theorem rotate_scenarioMidnight :
    rotate (NewRotator "/var/log/system-sentinel" 7) scenarioMidnight (.ok scenarioLogDir) =
      ["metrics-2026-10-27.ndjson", "metrics-2026-10-05.ndjson"] := by
  decide

/-- C11, as stated, fails: with `retention_days = 7`, a pass at 12:00 UTC on 4 November 2026
deletes the file of 28 October 2026, whose date is `today - 7` and so is not strictly
before `today_utc - retention_days`. -/
theorem C11_counterexample :
    "metrics-2026-10-28.ndjson" ∈
      rotate (NewRotator "/var/log/system-sentinel" 7) scenarioNoon (.ok scenarioLogDir) ∧
    logFileName 2026 10 28 = "metrics-2026-10-28.ndjson" ∧
    todayUTC scenarioNoon = dayNumber 2026 11 4 ∧
    dayNumber 2026 10 28 = todayUTC scenarioNoon - 7 ∧
    ¬ (dayNumber 2026 10 28 < todayUTC scenarioNoon - 7) := by
  refine ⟨?_, by decide, by decide, by decide, by decide⟩
  rw [rotate_scenarioNoon]
  decide

/-- C11, amended. A rotation pass that can list the directory calls `os.Remove` on a name if
and only if the name belongs to an entry that is not a directory, is `metrics-YYYY-MM-DD.ndjson`
for a valid date, and the midnight UTC that starts that date lies strictly before the instant
`now - retention_days` days: the date is strictly before `today_utc - retention_days`, or it
is `today_utc - retention_days` and the UTC clock is past 00:00:00.  Every other entry is left
in place, a pass that cannot list the directory removes nothing, and with a positive
`retention_days` no file dated today or later is removed.  With `retention_days = 7` and files
dated today - 1, - 7, - 8 and - 30, a pass at 12:00 UTC leaves only the today - 1 file; a pass
at 00:00:00 UTC leaves the today - 1 and today - 7 files. -/
theorem C11_rotate_deletes (r : Rotator) (now : Int) (entries : List DirEntry)
    (name : String) :
    (name ∈ rotate r now (.ok entries) ↔
      ∃ e ∈ entries, e.Name = name ∧ e.IsDir = false ∧
        ∃ y m d, validDate y m d ∧ name = logFileName y m d ∧
          (dayNumber y m d < todayUTC now - r.retentionDays ∨
            (dayNumber y m d = todayUTC now - r.retentionDays ∧ 0 < now % nsPerDay))) ∧
    (now % nsPerDay = 0 →
      (name ∈ rotate r now (.ok entries) ↔
        ∃ e ∈ entries, e.Name = name ∧ e.IsDir = false ∧
          ∃ y m d, validDate y m d ∧ name = logFileName y m d ∧
            dayNumber y m d < todayUTC now - r.retentionDays)) ∧
    (∀ err, rotate r now (.error err) = []) ∧
    (0 < r.retentionDays → ∀ y m d, validDate y m d → todayUTC now ≤ dayNumber y m d →
      logFileName y m d ∉ rotate r now (.ok entries)) ∧
    rotate (NewRotator "/var/log/system-sentinel" 7) scenarioNoon (.ok scenarioLogDir) =
      ["metrics-2026-10-28.ndjson", "metrics-2026-10-27.ndjson",
       "metrics-2026-10-05.ndjson"] ∧
    rotate (NewRotator "/var/log/system-sentinel" 7) scenarioMidnight (.ok scenarioLogDir) =
      ["metrics-2026-10-27.ndjson", "metrics-2026-10-05.ndjson"] := by
  have key : name ∈ rotate r now (.ok entries) ↔
      ∃ e ∈ entries, e.Name = name ∧ e.IsDir = false ∧
        ∃ y m d, validDate y m d ∧ name = logFileName y m d ∧
          (dayNumber y m d < todayUTC now - r.retentionDays ∨
            (dayNumber y m d = todayUTC now - r.retentionDays ∧ 0 < now % nsPerDay)) := by
    rw [mem_rotate]
    constructor
    · rintro ⟨e, he, hname, hdir, y, m, d, hv, hn, hlt⟩
      exact ⟨e, he, hname, hdir, y, m, d, hv, hn, (before_cutoff_iff _ _ _).mp hlt⟩
    · rintro ⟨e, he, hname, hdir, y, m, d, hv, hn, hlt⟩
      exact ⟨e, he, hname, hdir, y, m, d, hv, hn, (before_cutoff_iff _ _ _).mpr hlt⟩
  refine ⟨key, ?_, fun _ => rfl, ?_, rotate_scenarioNoon, rotate_scenarioMidnight⟩
  · intro hmid
    rw [key]
    constructor
    · rintro ⟨e, he, hname, hdir, y, m, d, hv, hn, hlt | ⟨_, hpos⟩⟩
      · exact ⟨e, he, hname, hdir, y, m, d, hv, hn, hlt⟩
      · rw [hmid] at hpos
        exact absurd hpos (lt_irrefl 0)
    · rintro ⟨e, he, hname, hdir, y, m, d, hv, hn, hlt⟩
      exact ⟨e, he, hname, hdir, y, m, d, hv, hn, Or.inl hlt⟩
  · intro hpos y m d hv htoday hmem
    rw [mem_rotate] at hmem
    obtain ⟨e, _, _, _, y2, m2, d2, hv2, hn, hlt⟩ := hmem
    obtain ⟨s, hm, hp⟩ := logFileName_matched y m d hv
    obtain ⟨s2, hm2, hp2⟩ := logFileName_matched y2 m2 d2 hv2
    rw [← hn, hm] at hm2
    have hs : s = s2 := Option.some.inj hm2
    rw [← hs, hp] at hp2
    have ht : dayNumber y m d * nsPerDay = dayNumber y2 m2 d2 * nsPerDay := Option.some.inj hp2
    rw [← ht] at hlt
    rcases (before_cutoff_iff _ _ _).mp hlt with h | ⟨h, _⟩
    · omega
    · omega

end Rotation

/-! ## Theorems: the event metric -/

section EventMetric

open spec logging scripts

theorem log_ok (l : Logger) (env : LogEnv) (formatTime : Int → String)
    (eventType metric : String) (reasons : List String) (snap : MetricsSnapshot) (ev : Event)
    (h : (log l env formatTime eventType metric reasons snap).2 = .ok ev) :
    ev = { timestamp := formatTime snap.Timestamp, type := eventType, metric := metric,
           reasons := if reasons.length = 0 then none else some reasons, metrics := snap } := by
  unfold log at h
  rcases hr : rotateIfNeeded l env with ⟨l2, e2⟩
  rw [hr] at h
  cases e2 with
  | some err => simp at h
  | none =>
    simp only at h
    cases hw : env.writeError with
    | some err => rw [hw] at h; simp at h
    | none =>
      rw [hw] at h
      simp only [Except.ok.injEq] at h
      rw [← h]
      rfl

theorem log_succeeds (l : Logger) (env : LogEnv) (formatTime : Int → String)
    (eventType metric : String) (reasons : List String) (snap : MetricsSnapshot)
    (hopen : env.openError = none) (hwrite : env.writeError = none) :
    ∃ ev, (log l env formatTime eventType metric reasons snap).2 = .ok ev := by
  unfold log rotateIfNeeded
  rw [hopen, hwrite]
  split_ifs
  · exact ⟨_, rfl⟩
  · exact ⟨_, rfl⟩

theorem metric_of_list (reasons : List String) :
    (∀ x, reasons = [x] → (if reasons.length = 1 then reasons.getD 0 "" else "multi") = x) ∧
    (reasons.length ≠ 1 → (if reasons.length = 1 then reasons.getD 0 "" else "multi")
      = "multi") := by
  constructor
  · intro x hx
    rw [hx]
    rfl
  · intro h
    rw [if_neg h]

theorem reasons_carried (reasons : List String) :
    (if reasons.length = 0 then (none : Option (List String)) else some reasons).getD []
      = reasons ∧
    (reasons ≠ [] →
      (if reasons.length = 0 then (none : Option (List String)) else some reasons)
        = some reasons) := by
  cases reasons with
  | nil => simp
  | cons a rest => simp

theorem lookup_event_metric (formatTime : Int → String) (formatFloat : Float64 → String)
    (alertTypes : List String) (snap : MetricsSnapshot) :
    (buildEnv formatTime formatFloat alertTypes snap).lookup "SYS_EVENT_METRIC" =
      some (if alertTypes.length = 1 then alertTypes.getD 0 "" else "multi") := by
  unfold buildEnv
  simp [List.lookup]

/-- C12. For every list of reasons, the event that `LogSpike` and `LogAlert` write has
`metric` equal to the sole reason when the list has exactly one element and `"multi"`
otherwise, and carries the reasons in order (an empty list is left out of the JSON object,
which reads back as the empty list); CPU and network together give `metric = "multi"` with
`reasons = ["cpu", "network"]`; and `SYS_EVENT_METRIC` of the script runner for the same
alert list is the same string. -/
theorem C12_event_metric (l : Logger) (env : LogEnv) (formatTime : Int → String)
    (formatFloat : Float64 → String) (snap : MetricsSnapshot) (reasons : List String) :
    (∀ ev, (LogSpike l env formatTime snap reasons).2 = .ok ev →
      ev.type = "spike" ∧ (∀ x, reasons = [x] → ev.metric = x) ∧
        (reasons.length ≠ 1 → ev.metric = "multi") ∧
        ev.reasons.getD [] = reasons ∧ (reasons ≠ [] → ev.reasons = some reasons)) ∧
    (∀ ev, (LogAlert l env formatTime snap reasons).2 = .ok ev →
      ev.type = "alert" ∧ (∀ x, reasons = [x] → ev.metric = x) ∧
        (reasons.length ≠ 1 → ev.metric = "multi") ∧
        ev.reasons.getD [] = reasons ∧ (reasons ≠ [] → ev.reasons = some reasons) ∧
        (buildEnv formatTime formatFloat reasons snap).lookup "SYS_EVENT_METRIC"
          = some ev.metric) ∧
    (env.openError = none → env.writeError = none →
      (∃ ev, (LogSpike l env formatTime snap reasons).2 = .ok ev) ∧
      (∃ ev, (LogAlert l env formatTime snap reasons).2 = .ok ev)) ∧
    ((∀ x, reasons = [x] →
        (buildEnv formatTime formatFloat reasons snap).lookup "SYS_EVENT_METRIC" = some x) ∧
      (reasons.length ≠ 1 →
        (buildEnv formatTime formatFloat reasons snap).lookup "SYS_EVENT_METRIC"
          = some "multi")) ∧
    (∀ ev, (LogAlert l env formatTime snap ["cpu", "network"]).2 = .ok ev →
      ev.metric = "multi" ∧ ev.reasons = some ["cpu", "network"]) ∧
    (∀ ev, (LogSpike l env formatTime snap ["cpu", "network"]).2 = .ok ev →
      ev.metric = "multi" ∧ ev.reasons = some ["cpu", "network"]) := by
  have hm := metric_of_list reasons
  have hr := reasons_carried reasons
  have hlook := lookup_event_metric formatTime formatFloat reasons snap
  refine ⟨?_, ?_, ?_, ?_, ?_, ?_⟩
  · intro ev hev
    have h := log_ok l env formatTime "spike" _ reasons snap ev hev
    subst h
    exact ⟨rfl, hm.1, hm.2, hr.1, hr.2⟩
  · intro ev hev
    have h := log_ok l env formatTime "alert" _ reasons snap ev hev
    subst h
    exact ⟨rfl, hm.1, hm.2, hr.1, hr.2, hlook⟩
  · intro hopen hwrite
    exact ⟨log_succeeds l env formatTime "spike" _ reasons snap hopen hwrite,
      log_succeeds l env formatTime "alert" _ reasons snap hopen hwrite⟩
  · constructor
    · intro x hx
      rw [hlook, hm.1 x hx]
    · intro hne
      rw [hlook, hm.2 hne]
  · intro ev hev
    have h := log_ok l env formatTime "alert" _ ["cpu", "network"] snap ev hev
    subst h
    exact ⟨rfl, rfl⟩
  · intro ev hev
    have h := log_ok l env formatTime "spike" _ ["cpu", "network"] snap ev hev
    subst h
    exact ⟨rfl, rfl⟩

end EventMetric

/-! ## Theorems: configuration defaults -/

section ConfigDefaults

open spec config

/-- One step of `applyDefaults` on one of the fields that `validate` tests: a conditional
update that leaves the other five fields as they are. -/
theorem validatedFields_step (c c2 : Config) (p : Prop) [Decidable p]
    (h : validatedFields c2 = validatedFields c) :
    validatedFields (if p then c2 else c) = validatedFields c := by
  split_ifs
  · exact h
  · rfl

theorem applyDefaults_fields (c : Config) :
    validatedFields (applyDefaults c) = defaultedFields c := by
  unfold applyDefaults
  lift_lets
  intro c1 c2 c3 c4 c5 s6 c6 s7 c7 s8 c8 s9 c9
  have f1 : validatedFields c1 =
      (if c.SampleIntervalSec ≤ 0 then 1 else c.SampleIntervalSec, c.CollectionIntervalSec,
        c.RetentionDays, c.Interface, c.Scripts.DebounceSec, c.Scripts.TimeoutSec) := by
    unfold c1
    split_ifs <;> rfl
  clear_value c1
  have f2 : validatedFields c2 =
      (if c.SampleIntervalSec ≤ 0 then 1 else c.SampleIntervalSec,
        if c.CollectionIntervalSec ≤ 0 then 60 else c.CollectionIntervalSec,
        c.RetentionDays, c.Interface, c.Scripts.DebounceSec, c.Scripts.TimeoutSec) := by
    simp only [validatedFields, Prod.mk.injEq] at f1 ⊢
    obtain ⟨a1, a2, a3, a4, a5, a6⟩ := f1
    rw [← a1, ← a2, ← a3, ← a4, ← a5, ← a6]
    unfold c2
    split_ifs <;> exact ⟨rfl, rfl, rfl, rfl, rfl, rfl⟩
  clear_value c2
  have f3 : validatedFields c3 = validatedFields c2 :=
    validatedFields_step c2 _ _ rfl
  clear_value c3
  have f4 : validatedFields c4 =
      (if c.SampleIntervalSec ≤ 0 then 1 else c.SampleIntervalSec,
        if c.CollectionIntervalSec ≤ 0 then 60 else c.CollectionIntervalSec,
        if c.RetentionDays ≤ 0 then 30 else c.RetentionDays, c.Interface,
        c.Scripts.DebounceSec, c.Scripts.TimeoutSec) := by
    rw [f2] at f3
    simp only [validatedFields, Prod.mk.injEq] at f3 ⊢
    obtain ⟨a1, a2, a3, a4, a5, a6⟩ := f3
    rw [← a1, ← a2, ← a3, ← a4, ← a5, ← a6]
    unfold c4
    split_ifs <;> exact ⟨rfl, rfl, rfl, rfl, rfl, rfl⟩
  clear_value c4
  have f5 : validatedFields c5 =
      (if c.SampleIntervalSec ≤ 0 then 1 else c.SampleIntervalSec,
        if c.CollectionIntervalSec ≤ 0 then 60 else c.CollectionIntervalSec,
        if c.RetentionDays ≤ 0 then 30 else c.RetentionDays,
        if c.Interface = "" then "eth0" else c.Interface,
        c.Scripts.DebounceSec, c.Scripts.TimeoutSec) := by
    simp only [validatedFields, Prod.mk.injEq] at f4 ⊢
    obtain ⟨a1, a2, a3, a4, a5, a6⟩ := f4
    rw [← a1, ← a2, ← a3, ← a4, ← a5, ← a6]
    unfold c5
    split_ifs <;> exact ⟨rfl, rfl, rfl, rfl, rfl, rfl⟩
  clear_value c5
  have f6 : validatedFields c6 = validatedFields c5 :=
    validatedFields_step c5 _ _ rfl
  clear_value c6
  have f7 : validatedFields c7 = validatedFields c6 :=
    validatedFields_step c6 _ _ rfl
  clear_value c7
  have f8 : validatedFields c8 =
      (if c.SampleIntervalSec ≤ 0 then 1 else c.SampleIntervalSec,
        if c.CollectionIntervalSec ≤ 0 then 60 else c.CollectionIntervalSec,
        if c.RetentionDays ≤ 0 then 30 else c.RetentionDays,
        if c.Interface = "" then "eth0" else c.Interface,
        if c.Scripts.DebounceSec ≤ 0 then 60 else c.Scripts.DebounceSec,
        c.Scripts.TimeoutSec) := by
    rw [f6, f5] at f7
    simp only [validatedFields, Prod.mk.injEq] at f7 ⊢
    obtain ⟨a1, a2, a3, a4, a5, a6⟩ := f7
    rw [← a1, ← a2, ← a3, ← a4, ← a5, ← a6]
    unfold c8
    split_ifs <;> exact ⟨rfl, rfl, rfl, rfl, rfl, rfl⟩
  clear_value c8
  unfold defaultedFields
  simp only [validatedFields, Prod.mk.injEq] at f8 ⊢
  obtain ⟨a1, a2, a3, a4, a5, a6⟩ := f8
  rw [← a1, ← a2, ← a3, ← a4, ← a5, ← a6]
  unfold c9
  split_ifs <;> exact ⟨rfl, rfl, rfl, rfl, rfl, rfl⟩

theorem validate_of_fields (c : Config) (h1 : 0 < c.SampleIntervalSec)
    (h2 : 0 < c.CollectionIntervalSec) (h3 : 0 < c.RetentionDays) (h4 : c.Interface ≠ "")
    (h5 : 0 < c.Scripts.DebounceSec) (h6 : 0 < c.Scripts.TimeoutSec) :
    validate c = none := by
  unfold validate
  rw [if_neg (not_le.mpr h1), if_neg (not_le.mpr h2), if_neg (not_le.mpr h3), if_neg h4,
    if_neg (not_le.mpr h5), if_neg (not_le.mpr h6)]

theorem validate_applyDefaults (c : Config) : validate (applyDefaults c) = none := by
  have h := applyDefaults_fields c
  simp only [validatedFields, defaultedFields, Prod.mk.injEq] at h
  obtain ⟨a1, a2, a3, a4, a5, a6⟩ := h
  apply validate_of_fields
  · rw [a1]; split_ifs <;> omega
  · rw [a2]; split_ifs <;> omega
  · rw [a3]; split_ifs <;> omega
  · rw [a4]
    split_ifs with hi
    · decide
    · exact hi
  · rw [a5]; split_ifs <;> omega
  · rw [a6]; split_ifs <;> omega

theorem LoadConfig_of_parsed (readFile : String → Except String String)
    (unmarshal : String → Except String Config) (path data : String) (c : Config)
    (hpath : path ≠ "") (hread : readFile path = .ok data) (hparse : unmarshal data = .ok c) :
    LoadConfig readFile unmarshal path = .ok (applyDefaults c) := by
  unfold LoadConfig
  rw [if_neg hpath, hread]
  simp only [hparse, validate_applyDefaults]

/-- C13. For every parsed `Config`, `validate` applied after `applyDefaults` returns no
error: `applyDefaults` replaces a non-positive `sample_interval_sec`,
`collection_interval_sec`, `retention_days`, `scripts.debounce_sec` and `scripts.timeout_sec`
by 1, 60, 30, 60 and 30 and an empty `interface` by `eth0`, and keeps the other values.  So
`LoadConfig` returns the defaulted configuration for every file that is read and parsed, its
only errors are the empty path, the read error and the parse error, and a configuration with
non-positive durations is loaded with the defaults. -/
theorem C13_defaults_then_validate (c : Config) :
    validate (applyDefaults c) = none ∧
    (applyDefaults c).SampleIntervalSec
      = (if c.SampleIntervalSec ≤ 0 then 1 else c.SampleIntervalSec) ∧
    (applyDefaults c).CollectionIntervalSec
      = (if c.CollectionIntervalSec ≤ 0 then 60 else c.CollectionIntervalSec) ∧
    (applyDefaults c).RetentionDays = (if c.RetentionDays ≤ 0 then 30 else c.RetentionDays) ∧
    (applyDefaults c).Interface = (if c.Interface = "" then "eth0" else c.Interface) ∧
    (applyDefaults c).Scripts.DebounceSec
      = (if c.Scripts.DebounceSec ≤ 0 then 60 else c.Scripts.DebounceSec) ∧
    (applyDefaults c).Scripts.TimeoutSec
      = (if c.Scripts.TimeoutSec ≤ 0 then 30 else c.Scripts.TimeoutSec) ∧
    (∀ (readFile : String → Except String String) (unmarshal : String → Except String Config)
        (path data : String),
      path ≠ "" → readFile path = .ok data → unmarshal data = .ok c →
        LoadConfig readFile unmarshal path = .ok (applyDefaults c)) ∧
    (∀ (readFile : String → Except String String) (unmarshal : String → Except String Config)
        (path err : String),
      LoadConfig readFile unmarshal path = .error err →
        (path = "" ∧ err = "config path is required") ∨
        (∃ e, readFile path = .error e ∧ err = "failed to read config: " ++ e) ∨
        (∃ data e, readFile path = .ok data ∧ unmarshal data = .error e ∧
          err = "failed to parse config: " ++ e)) ∧
    validatedFields (applyDefaults emptyConfig) = (1, 60, 30, "eth0", 60, 30) := by
  have h := applyDefaults_fields c
  simp only [validatedFields, defaultedFields, Prod.mk.injEq] at h
  obtain ⟨a1, a2, a3, a4, a5, a6⟩ := h
  refine ⟨validate_applyDefaults c, a1, a2, a3, a4, a5, a6, ?_, ?_, ?_⟩
  · intro readFile unmarshal path data hpath hread hparse
    exact LoadConfig_of_parsed readFile unmarshal path data c hpath hread hparse
  · intro readFile unmarshal path err herr
    unfold LoadConfig at herr
    by_cases hpath : path = ""
    · rw [if_pos hpath] at herr
      simp only [Except.error.injEq] at herr
      exact Or.inl ⟨hpath, herr.symm⟩
    · rw [if_neg hpath] at herr
      cases hread : readFile path with
      | error e =>
        rw [hread] at herr
        simp only [Except.error.injEq] at herr
        exact Or.inr (Or.inl ⟨e, rfl, herr.symm⟩)
      | ok data =>
        rw [hread] at herr
        simp only at herr
        cases hparse : unmarshal data with
        | error e =>
          rw [hparse] at herr
          simp only [Except.error.injEq] at herr
          exact Or.inr (Or.inr ⟨data, e, rfl, hparse, herr.symm⟩)
        | ok cfg =>
          rw [hparse] at herr
          simp only [validate_applyDefaults] at herr
          exact absurd herr (by simp)
  · rw [applyDefaults_fields]
    decide

end ConfigDefaults

end Sentinel
